import Mathlib

set_option maxRecDepth 16384

/-!
Verification development for the receipt ingestion and normalization
pipeline of the economiza backend.

The Python sources are embedded shallowly:

* raw provider payloads (Python dicts/lists/scalars) become the inductive
  `Json` type;
* `decimal.Decimal` values become `ℚ` (Python decimals are exact, and the
  code only adds, multiplies and compares them), with the string-to-decimal
  constructor modelled by `pyDecimal?` on the plain `sign digits . digits`
  fragment that the pipeline feeds it (no exponents or special values ever
  reach it);
* functions that can raise return `Except`/`Option`;
* the wall clock (`datetime.now()`) is an explicit `now : Nat` parameter,
  and the datetime parsing library (`datetime.fromisoformat`,
  `datetime.strptime`) is an explicit `PyDateLib` record parameter, since
  both are external to the repository.
-/

namespace Economiza

/-- Python value tree as produced by `json`/`xmltodict`: the shape of the
raw payloads the parser receives.  Python `True`/`False` are `bool`,
`None` is `null`; numbers in the payloads of this pipeline are integers
or strings, so `int` carries `Int`. -/
inductive Json where
  | null : Json
  | bool : Bool → Json
  | int : Int → Json
  | str : String → Json
  | arr : List Json → Json
  | obj : List (String × Json) → Json
deriving Repr

namespace Json

/-- Dictionary lookup, first occurrence wins (Python dicts have unique
keys; payload objects are built with unique keys). -/
def lookup : Json → String → Option Json
  | .obj kvs, k => kvs.lookup k
  | _, _ => none

/-- Python `key in d`. -/
def hasKey (j : Json) (k : String) : Bool :=
  (j.lookup k).isSome

/-- Python `d.get(key, default)`. -/
def getD (j : Json) (k : String) (d : Json) : Json :=
  (j.lookup k).getD d

/-- Python `d.get(key)` (default `None`). -/
def getN (j : Json) (k : String) : Json :=
  j.getD k .null

/-- Python `v is None`. -/
def isNull : Json → Bool
  | .null => true
  | _ => false

end Json

/-- Python truthiness of a payload value. -/
def pyTruthy : Json → Bool
  | .null => false
  | .bool b => b
  | .int n => n != 0
  | .str s => !s.isEmpty
  | .arr xs => !xs.isEmpty
  | .obj kvs => !kvs.isEmpty

/-- Python `a or b` on payload values. -/
def jOr (a b : Json) : Json :=
  if pyTruthy a then a else b

mutual

/-- Python `repr` of a payload value (the form `str` produces for lists
and dicts).  Only its digit/dot content matters to the code, via
`_safe_decimal`. -/
def pyRepr : Json → String
  | .null => "None"
  | .bool b => if b then "True" else "False"
  | .int n => toString n
  | .str s => "'" ++ s ++ "'"
  | .arr xs => "[" ++ pyReprList xs ++ "]"
  | .obj kvs => "\x7b" ++ pyReprKvs kvs ++ "\x7d"

/-- Comma-joined `repr`s of a list of payload values. -/
def pyReprList : List Json → String
  | [] => ""
  | [x] => pyRepr x
  | x :: y :: xs => pyRepr x ++ ", " ++ pyReprList (y :: xs)

/-- Comma-joined `repr`s of dict entries. -/
def pyReprKvs : List (String × Json) → String
  | [] => ""
  | [kv] => "'" ++ kv.1 ++ "': " ++ pyRepr kv.2
  | kv :: l :: kvs => "'" ++ kv.1 ++ "': " ++ pyRepr kv.2 ++ ", " ++ pyReprKvs (l :: kvs)

end

mutual

/-- Structural equality of payload values (Python `==` on these trees). -/
def jsonBEq : Json → Json → Bool
  | .null, .null => true
  | .bool a, .bool b => a == b
  | .int a, .int b => a == b
  | .str a, .str b => a == b
  | .arr xs, .arr ys => jsonBEqList xs ys
  | .obj xs, .obj ys => jsonBEqKvs xs ys
  | _, _ => false

/-- Pointwise equality of payload lists. -/
def jsonBEqList : List Json → List Json → Bool
  | [], [] => true
  | x :: xs, y :: ys => jsonBEq x y && jsonBEqList xs ys
  | _, _ => false

/-- Pointwise equality of dict entry lists. -/
def jsonBEqKvs : List (String × Json) → List (String × Json) → Bool
  | [], [] => true
  | x :: xs, y :: ys => x.1 == y.1 && jsonBEq x.2 y.2 && jsonBEqKvs xs ys
  | _, _ => false

end

instance : BEq Json := ⟨jsonBEq⟩

/-- Python `str` of a payload value. -/
def pyStr : Json → String
  | .null => "None"
  | .bool b => if b then "True" else "False"
  | .int n => toString n
  | .str s => s
  | j => pyRepr j

/-! ### Python string primitives

Lean's own `String.toLower`, `trim`, `splitOn`, `replace`, `contains`,
`startsWith` and `endsWith` are opaque to kernel reduction, so the
Python string operations are modelled by list-based equivalents. -/

/-- Python `str.lower` on ASCII plus the accented Latin-1 letters that
occur in Portuguese text. -/
def pyLowerChar (c : Char) : Char :=
  match c with
  | 'Á' => 'á' | 'À' => 'à' | 'Â' => 'â' | 'Ã' => 'ã' | 'Ä' => 'ä'
  | 'É' => 'é' | 'È' => 'è' | 'Ê' => 'ê' | 'Ë' => 'ë'
  | 'Í' => 'í' | 'Ì' => 'ì' | 'Î' => 'î' | 'Ï' => 'ï'
  | 'Ó' => 'ó' | 'Ò' => 'ò' | 'Ô' => 'ô' | 'Õ' => 'õ' | 'Ö' => 'ö'
  | 'Ú' => 'ú' | 'Ù' => 'ù' | 'Û' => 'û' | 'Ü' => 'ü'
  | 'Ç' => 'ç' | 'Ñ' => 'ñ'
  | _ => c.toLower

/-- Python `str.lower`. -/
def pyLower (s : String) : String :=
  String.mk (s.data.map pyLowerChar)

/-- Python `\s` on the ASCII whitespace the pipeline sees. -/
def isPySpace (c : Char) : Bool :=
  c = ' ' || c = '\t' || c = '\n' || c = '\r' || c = '\x0b' || c = '\x0c'

/-- Python `str.strip()` (ASCII whitespace). -/
def pyStrip (s : String) : String :=
  String.mk (((s.data.dropWhile isPySpace).reverse.dropWhile isPySpace).reverse)

/-- List-prefix test. -/
def strPrefix : List Char → List Char → Bool
  | [], _ => true
  | _ :: _, [] => false
  | a :: as, b :: bs => a = b && strPrefix as bs

/-- List-suffix test (Python `str.endswith`). -/
def strSuffix (suf s : List Char) : Bool :=
  strPrefix suf.reverse s.reverse

/-- Python `str.replace(old, new)` for a one-character `old`. -/
def replaceChar (a : Char) (rep : List Char) : List Char → List Char
  | [] => []
  | c :: rest =>
    if c = a then rep ++ replaceChar a rep rest else c :: replaceChar a rep rest

/-- Python `str.replace` on strings, single-character pattern. -/
def pyReplace (s : String) (a : Char) (rep : String) : String :=
  String.mk (replaceChar a rep.data s.data)

/-- Python `str.split(sep)` for a one-character separator (keeps empty
pieces, like Python with an explicit separator). -/
def splitChar (sep : Char) : List Char → List (List Char)
  | [] => [[]]
  | c :: rest =>
    let r := splitChar sep rest
    if c = sep then [] :: r
    else (c :: r.headD []) :: r.tail

/-- First piece of `s.split(sep)` (i.e. `s.split(sep)[0]`). -/
def splitCharHead (sep : Char) (s : String) : String :=
  String.mk ((splitChar sep s.data).headD [])

/-- Split at the FIRST occurrence of a substring, or `none`. -/
def splitFirst (sep : List Char) : List Char → Option (List Char × List Char)
  | [] => none
  | c :: rest =>
    if strPrefix sep (c :: rest) then some ([], (c :: rest).drop sep.length)
    else match splitFirst sep rest with
      | some (pre, post) => some (c :: pre, post)
      | none => none

/-- Value of a digit list read in base 10. -/
def digitsVal (ds : List Char) : Nat :=
  ds.foldl (fun a c => a * 10 + (c.toNat - 48)) 0

/-- Unsigned `digits [. digits]` decimal literal, at least one digit. -/
def parseUnsignedDec? (cs : List Char) : Option ℚ :=
  let intPart := cs.takeWhile Char.isDigit
  let rest := cs.drop intPart.length
  match rest with
  | [] => if intPart.isEmpty then none else some (digitsVal intPart)
  | '.' :: frac =>
      if frac.all Char.isDigit && !(intPart.isEmpty && frac.isEmpty) then
        some ((digitsVal intPart : ℚ) + (digitsVal frac : ℚ) / (10 : ℚ) ^ frac.length)
      else none
  | _ => none

/-- Model of Python `Decimal(string)` on the numeric-literal fragment the
pipeline produces: optional surrounding whitespace, optional sign, digits
with at most one dot.  Anything else raises `InvalidOperation`, modelled
as `none`. -/
def pyDecimal? (s : String) : Option ℚ :=
  match (pyStrip s).data with
  | '-' :: r => (parseUnsignedDec? r).map Neg.neg
  | '+' :: r => parseUnsignedDec? r
  | cs => parseUnsignedDec? cs

/-- Cleanup performed by `_safe_decimal` on strings: strip, `,` → `.`,
then drop every character that is not a digit or a dot
(`re.sub(r'[^\d.]', '', s)`). -/
def safeClean (s : String) : String :=
  String.mk ((pyReplace (pyStrip s) ',' ".").data.filter fun c => c.isDigit || c == '.')

/-- The string branch of `_safe_decimal`: after cleanup an empty string
gives 0, and a `Decimal` failure (e.g. two dots) is caught and gives 0. -/
def safeDecimalStr (s : String) : ℚ :=
  let cleaned := safeClean s
  if cleaned.isEmpty then 0 else (pyDecimal? cleaned).getD 0

/-- `receipt_parser._safe_decimal`: total coercion of any payload value to
a decimal.  `None` gives 0; ints pass through (`Decimal(str(int))`); bools
are ints for `isinstance`, and `Decimal("True")` raises, caught to 0;
everything else goes through `str(value)` and the cleanup path. -/
def safeDecimal : Json → ℚ
  | .null => 0
  | .int n => (n : ℚ)
  | .bool _ => 0
  | .str s => safeDecimalStr s
  | .arr xs => safeDecimalStr (pyRepr (.arr xs))
  | .obj kvs => safeDecimalStr (pyRepr (.obj kvs))

/-- Python `Decimal(str(v))` without the safety wrapper, as used directly
by `_parse_fake_format`, `_extract_totals` and `_extract_items`:
failure (`InvalidOperation`) is `none`. -/
def rawDecimal? (v : Json) : Option ℚ :=
  match v with
  | .int n => some (n : ℚ)
  | _ => pyDecimal? (pyStr v)

/-! ### Timestamps

`datetime` values are opaque to the pipeline: it only constructs them
(parsing a string, or `datetime.now()`) and stores them.  `DTime` keeps
just enough structure to tell the construction paths apart. -/

/-- A datetime value: parsed from a string by `fromisoformat`, parsed by
`strptime` with a format, or the wall clock at instant `t`. -/
inductive DTime where
  | iso : String → DTime
  | fmt : String → String → DTime
  | nowAt : Nat → DTime
deriving DecidableEq, Repr

/-- The Python datetime library functions the parser calls, as an
explicit parameter (they are external to the repository).  `none` models
`ValueError` on an unparseable string. -/
structure PyDateLib where
  fromiso : String → Option DTime
  strptime : String → String → Option DTime

/-- Canonical line item produced by the parser (`items` entries of the
returned dict).  The fake and XML shapes never set `barcode`, the
provider shape sets it to `codigo_barras or ean or None`. -/
structure CanonItem where
  description : String
  quantity : ℚ
  unit_price : ℚ
  total_price : ℚ
  tax_value : ℚ
  barcode : Json
deriving Repr

/-- Canonical receipt produced by `parse_note`.  `store_name` and
`store_cnpj` are stored as the raw payload values the code puts in the
dict (they are not always strings). -/
structure Canon where
  access_key : String
  emitted_at : DTime
  store_name : Json
  store_cnpj : Json
  subtotal : ℚ
  total_value : ℚ
  total_tax : ℚ
  items : List CanonItem
deriving Repr

/-- Failure modes of `parse_note`: `valueError` for the explicit
`raise ValueError(...)` sites, `invalidOperation` for an uncaught
`Decimal` conversion error, `typeError` for iterating/`.get`-ing a
value of the wrong type. -/
inductive ParseErr where
  | valueError : String → ParseErr
  | invalidOperation : ParseErr
  | typeError : ParseErr
deriving DecidableEq, Repr

/-! ### Fake (fixture) format -/

/-- One item of `_parse_fake_format`: every amount goes through a bare
`Decimal(str(...))`, whose failure aborts the whole parse. -/
def fakeItem (item : Json) : Except ParseErr CanonItem := do
  match item with
  | .obj _ =>
    let q ← match rawDecimal? (item.getD "quantity" (.int 1)) with
      | some q => .ok q
      | none => .error .invalidOperation
    let up ← match rawDecimal? (item.getD "unit_price" (.int 0)) with
      | some q => .ok q
      | none => .error .invalidOperation
    let tp ← match rawDecimal? (item.getD "total_price" (.int 0)) with
      | some q => .ok q
      | none => .error .invalidOperation
    let tv ← match rawDecimal? (item.getD "tax_value" (.int 0)) with
      | some q => .ok q
      | none => .error .invalidOperation
    .ok { description := pyStr (item.getD "description" (.str ""))
          quantity := q, unit_price := up, total_price := tp, tax_value := tv
          barcode := .null }
  | _ => .error .typeError

/-- Emission date of the fake format: `fromisoformat` on the
`Z`-adjusted string, any failure (including a non-string field) caught
by the bare `except`, defaulting to `datetime.now()`. -/
def fakeEmitted (lib : PyDateLib) (now : Nat) (raw : Json) : DTime :=
  match raw.getD "emitted_at" (.str "") with
  | .str s => (lib.fromiso (pyReplace s 'Z' "+00:00")).getD (.nowAt now)
  | _ => .nowAt now

/-- The `items` field of the fake shape, which must be a list to be
iterable (anything else raises). -/
def fakeItemsList (raw : Json) : Except ParseErr (List Json) :=
  match raw.getD "items" (.arr []) with
  | .arr xs => .ok xs
  | _ => .error .typeError

/-- A top-level amount of the fake shape: bare `Decimal(str(...))`,
whose failure aborts the parse. -/
def fakeAmount (raw : Json) (k : String) : Except ParseErr ℚ :=
  match rawDecimal? (raw.getD k (.int 0)) with
  | some q => .ok q
  | none => .error .invalidOperation

/-- `receipt_parser._parse_fake_format`: flat fixture shape.  Note that
it performs no access-key or non-empty-items validation. -/
def parseFakeFormat (lib : PyDateLib) (now : Nat) (raw : Json) : Except ParseErr Canon :=
  match fakeItemsList raw with
  | .error e => .error e
  | .ok itemsList =>
    match itemsList.mapM fakeItem with
    | .error e => .error e
    | .ok parsedItems =>
      match fakeAmount raw "subtotal" with
      | .error e => .error e
      | .ok subtotal =>
        match fakeAmount raw "total" with
        | .error e => .error e
        | .ok total =>
          match fakeAmount raw "tax" with
          | .error e => .error e
          | .ok tax =>
            .ok { access_key := pyStr (raw.getD "access_key" (.str ""))
                  emitted_at := fakeEmitted lib now raw
                  store_name := (raw.getD "store" (.obj [])).getD "name"
                    (.str "Loja não identificada")
                  store_cnpj := (raw.getD "store" (.obj [])).getN "cnpj"
                  subtotal := subtotal, total_value := total, total_tax := tax
                  items := parsedItems }

/-! ### Provider (Webmania/Oobj `retorno`) format -/

/-- Emission date of the provider format: ISO branch for strings with a
`T`, `strptime "%d/%m/%Y %H:%M:%S"` for strings with a `/`, plain
`fromisoformat` otherwise; any failure (or a non-string field, whose
`in` test raises) is caught, defaulting to `datetime.now()`. -/
def providerEmitted (lib : PyDateLib) (now : Nat) (retorno : Json) : DTime :=
  let d := jOr (retorno.getN "data_emissao")
           (jOr (retorno.getN "dataEmissao") (jOr (retorno.getN "dhEmi") (.str "")))
  match d with
  | .str s =>
      if s.isEmpty then .nowAt now
      else if s.data.contains 'T' then (lib.fromiso (pyReplace s 'Z' "+00:00")).getD (.nowAt now)
      else if s.data.contains '/' then (lib.strptime "%d/%m/%Y %H:%M:%S" s).getD (.nowAt now)
      else (lib.fromiso s).getD (.nowAt now)
  | _ => .nowAt now

/-- One product of the provider format.  Failures inside the loop body
(`produto.get` on a non-dict) are caught and skip the product; all
amounts go through `_safe_decimal` and never fail. -/
def providerItem (produto : Json) : Option CanonItem :=
  match produto with
  | .obj _ =>
    let descricao := pyStr (jOr (produto.getN "descricao")
      (jOr (produto.getN "desc") (.str "Produto não identificado")))
    let quantidade := safeDecimal (jOr (produto.getN "quantidade")
      (jOr (produto.getN "qtd") (.str "1")))
    let valorUnitario := safeDecimal (jOr (produto.getN "valor_unitario")
      (jOr (produto.getN "preco_unitario") (.str "0")))
    let valorTotal0 := safeDecimal (jOr (produto.getN "valor_total")
      (jOr (produto.getN "preco_total") (.str "0")))
    let valorImposto := safeDecimal (jOr (produto.getN "valor_imposto")
      (jOr (produto.getN "imposto") (.str "0")))
    let valorTotal :=
      if valorTotal0 = 0 ∧ quantidade > 0 ∧ valorUnitario > 0 then
        quantidade * valorUnitario
      else valorTotal0
    some { description := descricao, quantity := quantidade
           unit_price := valorUnitario, total_price := valorTotal
           tax_value := valorImposto
           barcode := jOr (produto.getN "codigo_barras") (jOr (produto.getN "ean") .null) }
  | _ => none

/-- The provider-format item loop: accumulates items, the subtotal
(sum of item totals) and the total tax, skipping failed products. -/
def providerItems (produtos : List Json) : List CanonItem × ℚ × ℚ :=
  produtos.foldl
    (fun acc p =>
      match providerItem p with
      | some it => (acc.1 ++ [it], acc.2.1 + it.total_price, acc.2.2 + it.tax_value)
      | none => acc)
    ([], 0, 0)

/-- The `retorno` wrapper (`raw.get("retorno", {})`). -/
def providerRetorno (raw : Json) : Json :=
  raw.getD "retorno" (.obj [])

/-- The access-key field of the provider format
(`retorno.get("chave") or retorno.get("chave_acesso") or ""`). -/
def providerAccessKeyJson (retorno : Json) : Json :=
  jOr (retorno.getN "chave") (jOr (retorno.getN "chave_acesso") (.str ""))

/-- The product list of the provider format, with the non-list
normalization (`[produtos] if produtos else []`). -/
def providerProdutos (retorno : Json) : List Json :=
  match retorno.getD "produto" (.arr []) with
  | .arr xs => xs
  | j => if pyTruthy j then [j] else []

/-- `receipt_parser._parse_provider_format`: the `{retorno: ...}` shape.
The access key is only checked for length 44 of its `str` form (not for
being digits). -/
def parseProviderFormat (lib : PyDateLib) (now : Nat) (raw : Json) : Except ParseErr Canon := do
  let retorno := providerRetorno raw
  if ¬pyTruthy retorno then
    .error (.valueError "Formato de resposta do provider inválido: campo retorno não encontrado")
  else
    let accessKey := providerAccessKeyJson retorno
    if ¬pyTruthy accessKey ∨ (pyStr accessKey).length ≠ 44 then
      .error (.valueError "Chave de acesso inválida ou não encontrada")
    else
      let emitente := retorno.getD "emitente" (.obj [])
      let storeName := jOr (emitente.getN "razao_social")
        (jOr (emitente.getN "nome") (.str "Loja não identificada"))
      let storeCnpj := jOr (emitente.getN "cnpj") (jOr (emitente.getN "CNPJ") (.str ""))
      let emittedAt := providerEmitted lib now retorno
      let (items, subtotal, totalTax) := providerItems (providerProdutos retorno)
      if items.isEmpty then
        .error (.valueError "Nenhum produto encontrado na nota")
      else
        let totalValue0 := subtotal + totalTax
        let totalValue :=
          if retorno.hasKey "total" then
            if pyTruthy (retorno.getN "total") then safeDecimal (retorno.getN "total")
            else if pyTruthy (retorno.getN "valor_total") then safeDecimal (retorno.getN "valor_total")
            else totalValue0
          else totalValue0
        .ok { access_key := pyStr accessKey
              emitted_at := emittedAt
              store_name := storeName, store_cnpj := storeCnpj
              subtotal := subtotal, total_value := totalValue, total_tax := totalTax
              items := items }

/-! ### XML-derived format -/

/-- `receipt_parser._normalize_structure`: unwrap common envelopes. -/
def normalizeStructure (data : Json) : Json :=
  if data.hasKey "nfeProc" then data.getN "nfeProc"
  else if data.hasKey "NFe" then data.getN "NFe"
  else if data.hasKey "nfe" then data.getN "nfe"
  else if data.hasKey "infNFe" then data.getN "infNFe"
  else data

/-- `receipt_parser._get_nested_value`: walk a key path, failing on a
missing key, a `None` value, or a non-dict intermediate. -/
def getNested : Json → List String → Option Json
  | j, [] => some j
  | j, k :: ks =>
    match j with
    | .obj kvs =>
      match (Json.obj kvs).lookup k with
      | some v => if v.isNull then none else getNested v ks
      | none => none
    | _ => none

/-- First truthy value among candidate paths. -/
def firstTruthy (data : Json) (paths : List (List String)) : Option Json :=
  paths.findSome? fun p =>
    match getNested data p with
    | some v => if pyTruthy v then some v else none
    | none => none

/-- One candidate of `_extract_access_key`: strip a leading `NFe` from
strings, accept when the `str` form has length 44. -/
def accessKeyCandidate (v : Json) : Option String :=
  let v' := match v with
    | .str s => if strPrefix "NFe".data s.data then Json.str (String.mk (s.data.drop 3))
                else Json.str s
    | j => j
  if (pyStr v').length = 44 then some (pyStr v') else none

/-- `receipt_parser._extract_access_key`: first candidate path whose
truthy value passes the length-44 check; `""` when none does. -/
def extractAccessKey (data : Json) : String :=
  let paths : List (List String) :=
    [["@Id"], ["infNFe", "@Id"], ["ide", "chNFe"], ["chave"], ["access_key"]]
  (paths.findSome? fun p =>
    match getNested data p with
    | some v => if pyTruthy v then accessKeyCandidate v else none
    | none => none).getD ""

/-- One candidate of `_extract_emitted_at`: the branch taken depends on
the string contents; a parse failure moves on to the next path. -/
def emittedCandidate (lib : PyDateLib) (v : Json) : Option DTime :=
  match v with
  | .str s =>
      if s.data.contains 'T' then lib.fromiso (pyReplace s 'Z' "+00:00")
      else if s.data.contains '/' then lib.strptime "%d/%m/%Y" s
      else lib.fromiso s
  | j => lib.fromiso (pyStr j)

/-- `receipt_parser._extract_emitted_at`: first parseable truthy
candidate, defaulting to `datetime.now()`. -/
def extractEmittedAt (lib : PyDateLib) (now : Nat) (data : Json) : DTime :=
  let paths : List (List String) :=
    [["ide", "dhEmi"], ["ide", "dEmi"], ["emitted_at"], ["dataEmissao"]]
  (paths.findSome? fun p =>
    match getNested data p with
    | some v => if pyTruthy v then emittedCandidate lib v else none
    | none => none).getD (.nowAt now)

/-- `receipt_parser._extract_store_name`: `str` of the first truthy
candidate, `""` otherwise. -/
def extractStoreName (data : Json) : String :=
  ((firstTruthy data [["emit", "xNome"], ["emit", "xFant"], ["store_name"], ["nomeEmitente"]]).map
    pyStr).getD ""

/-- `receipt_parser._extract_store_cnpj`: `str` of the first truthy
candidate, `None` otherwise. -/
def extractStoreCnpj (data : Json) : Json :=
  ((firstTruthy data [["emit", "CNPJ"], ["emit", "cnpj"], ["store_cnpj"], ["cnpjEmitente"]]).map
    (fun v => Json.str (pyStr v))).getD .null

/-- Bare `Decimal(str(value))` of the first truthy candidate of a path
table, defaulting to 0; the conversion failure is NOT caught and aborts
the whole parse. -/
def totalsField (data : Json) (paths : List (List String)) : Except ParseErr ℚ :=
  match firstTruthy data paths with
  | none => .ok 0
  | some v =>
    match rawDecimal? v with
    | some q => .ok q
    | none => .error .invalidOperation

/-- `receipt_parser._extract_totals`: subtotal, total and tax from their
path tables; a zero subtotal is replaced by the total. -/
def extractTotals (data : Json) : Except ParseErr (ℚ × ℚ × ℚ) := do
  let totalValue ← totalsField data
    [["total", "ICMSTot", "vNF"], ["total", "ICMSTot", "vProd"], ["total", "vNF"],
     ["total_value"], ["valorTotal"]]
  let subtotal0 ← totalsField data
    [["total", "ICMSTot", "vProd"], ["total", "vProd"], ["subtotal"], ["valorProdutos"]]
  let totalTax ← totalsField data
    [["total", "ICMSTot", "vTotTrib"], ["total", "ICMSTot", "vIPI"], ["total", "vTotTrib"],
     ["total_tax"], ["valorImpostos"]]
  let subtotal := if subtotal0 = 0 then totalValue else subtotal0
  .ok (subtotal, totalValue, totalTax)

/-- Tax accumulation of one XML item (`imposto` block); `none` when a
step raises inside the per-item `try`. -/
def xmlDetTax (det : Json) : Option ℚ := do
  let imp := det.getD "imposto" (.obj [])
  if pyTruthy imp then
    match imp with
    | .obj _ => do
      let ipi := imp.getD "IPI" (.obj [])
      let fromIpi ←
        if pyTruthy ipi then
          match ipi with
          | .obj _ => do
            let ipiTot := jOr (ipi.getD "IPITrib" (.obj [])) (ipi.getD "IPINT" (.obj []))
            if pyTruthy ipiTot then
              match ipiTot with
              | .obj _ => rawDecimal? (ipiTot.getD "vIPI" (.str "0"))
              | _ => none
            else pure 0
          | _ => none
        else pure 0
      let icms := imp.getD "ICMS" (.obj [])
      let fromIcms ←
        match icms with
        | .obj _ =>
          let icmsVal := icms.getD "vICMS" (.str "0")
          if pyTruthy icmsVal then rawDecimal? icmsVal else pure 0
        | _ => pure 0
      pure (fromIpi + fromIcms)
    | _ => none
  else pure 0

/-- One XML item (`det` entry): any failure inside the `try` skips the
item.  Non-dict `det`s fail at `det.get("description")`, non-dict
`prod`s fail at `prod.get`. -/
def xmlDet (det : Json) : Option CanonItem :=
  match det with
  | .obj _ =>
    let prod := det.getD "prod" (.obj [])
    match prod with
    | .obj _ => do
      let description := jOr (prod.getN "xProd")
        (jOr (prod.getN "descricao") (jOr (det.getN "description") (.str "Produto não identificado")))
      let quantity ← rawDecimal? (prod.getD "qCom" (prod.getD "quantidade" (.str "1")))
      let unitPrice ← rawDecimal? (prod.getD "vUnCom" (prod.getD "precoUnitario" (.str "0")))
      let totalPrice ← rawDecimal? (prod.getD "vProd" (prod.getD "valorTotal" (.str "0")))
      let taxValue ← xmlDetTax det
      pure { description := pyStr description, quantity := quantity
             unit_price := unitPrice, total_price := totalPrice
             tax_value := taxValue, barcode := .null }
    | _ => none
  | _ => none

/-- `receipt_parser._extract_items`: first truthy det path, wrap a
non-list in a singleton, parse each det and skip failures. -/
def extractItems (data : Json) : List CanonItem :=
  match firstTruthy data [["det"], ["dets", "det"], ["items"], ["produtos"]] with
  | none => []
  | some detList =>
    let dets := match detList with
      | .arr xs => xs
      | j => [j]
    dets.foldl (fun acc d => match xmlDet d with
      | some it => acc ++ [it]
      | none => acc) []

/-- The XML branch of `parse_note`: the extractions run in source order
(totals may abort with an uncaught `Decimal` error), then the key and
item validations.  The `emitted_at` check of the source never fires
because `_extract_emitted_at` always returns a datetime. -/
def parseXmlFormat (lib : PyDateLib) (now : Nat) (raw : Json) : Except ParseErr Canon :=
  match extractTotals (normalizeStructure raw) with
  | .error e => .error e
  | .ok (subtotal, totalValue, totalTax) =>
    if (extractAccessKey (normalizeStructure raw)).isEmpty then
      .error (.valueError "Chave de acesso não encontrada")
    else if (extractItems (normalizeStructure raw)).isEmpty then
      .error (.valueError "Nenhum item encontrado na nota")
    else
      .ok { access_key := extractAccessKey (normalizeStructure raw)
            emitted_at := extractEmittedAt lib now (normalizeStructure raw)
            store_name := .str (if (extractStoreName (normalizeStructure raw)).isEmpty then
                "Loja não identificada" else extractStoreName (normalizeStructure raw))
            store_cnpj := extractStoreCnpj (normalizeStructure raw)
            subtotal := subtotal, total_value := totalValue, total_tax := totalTax
            items := extractItems (normalizeStructure raw) }

/-- Success test on a fallible result. -/
def exOk {ε α : Type} : Except ε α → Bool
  | .ok _ => true
  | .error _ => false

instance {ε α : Type} [DecidableEq ε] [DecidableEq α] : DecidableEq (Except ε α) := fun a b =>
  match a, b with
  | .ok x, .ok y =>
    if h : x = y then isTrue (by rw [h])
    else isFalse (fun k => h (by cases k; rfl))
  | .error x, .error y =>
    if h : x = y then isTrue (by rw [h])
    else isFalse (fun k => h (by cases k; rfl))
  | .ok _, .error _ => isFalse (fun k => by cases k)
  | .error _, .ok _ => isFalse (fun k => by cases k)

/-- `receipt_parser.parse_note`: shape dispatch, then the shape parser.
Only the XML branch runs the `parse_note`-level validations; the fake
branch validates nothing and the provider branch validates inside
`_parse_provider_format`. -/
def parseNote (lib : PyDateLib) (now : Nat) (raw : Json) : Except ParseErr Canon :=
  if raw.hasKey "store" ∧ raw.hasKey "total" ∧ raw.hasKey "items" then
    parseFakeFormat lib now raw
  else if raw.hasKey "retorno" then
    parseProviderFormat lib now raw
  else
    parseXmlFormat lib now raw

/-! ### Provider client (`app/services/provider_client.py`)

The HTTP transport is modelled by a function `responses : Nat → AttemptOut`
giving the outcome the network would produce for each attempt index; the
request loop returns, besides its result, the number of requests actually
issued and the list of backoff waits slept, so that "no retry" and
"zero network calls" are statements about the model. -/

/-- Outcome of one HTTP attempt: a status code, a timeout, or another
transport exception (`requests.exceptions.RequestException`). -/
inductive AttemptOut where
  | status : Nat → AttemptOut
  | timeout : AttemptOut
  | reqError : AttemptOut
deriving DecidableEq, Repr

/-- The provider error taxonomy: the four exception classes of
`provider_client`, with their messages.  The source has no separate
`SecurityError` class; the SSRF rejection raises `ProviderError` with
the fixed message `securityMsg`. -/
inductive PErr where
  | unauthorized : String → PErr
  | notFound : String → PErr
  | rateLimited : String → PErr
  | providerError : String → PErr
deriving DecidableEq, Repr

/-- Message of the `ProviderError` raised by the anti-SSRF rejection. -/
def securityMsg : String := "URL não permitida por questões de segurança"

/-- Result of the request loop: on success, the index of the attempt
whose response was returned (the body processing of `fetch_by_key` is
outside the modelled scope), plus requests issued and waits slept. -/
structure ReqOutcome where
  result : Except PErr Nat
  calls : Nat
  waits : List Nat
deriving Repr

/-- The body of `ProviderClient._make_request`'s `for attempt in
range(max_retries)` loop; `fuel` is the number of remaining iterations
(so `attempt < max_retries - 1` is `fuel > 1`), `backoff` the current
backoff multiplier, with `wait_time = backoff * (2 ** attempt)` and
`backoff *= 2` on every retry. -/
def makeRequestGo (responses : Nat → AttemptOut) :
    Nat → Nat → Nat → Nat → List Nat → ReqOutcome
  | 0, _, _, calls, waits =>
    ⟨.error (.providerError "Erro ao buscar nota fiscal após todas as tentativas"), calls, waits⟩
  | fuel + 1, attempt, backoff, calls, waits =>
    let calls := calls + 1
    let retryOrFail (failMsg : String) : ReqOutcome :=
      if fuel ≥ 1 then
        makeRequestGo responses fuel (attempt + 1) (backoff * 2) calls
          (waits ++ [backoff * 2 ^ attempt])
      else
        ⟨.error (.providerError failMsg), calls, waits⟩
    match responses attempt with
    | .status c =>
      if c = 401 ∨ c = 403 then
        ⟨.error (.unauthorized "Erro de autenticação com o provider"), calls, waits⟩
      else if c = 404 then
        ⟨.error (.notFound "Nota fiscal não encontrada"), calls, waits⟩
      else if c = 429 then
        ⟨.error (.rateLimited "Rate limit excedido. Tente novamente mais tarde."), calls, waits⟩
      else if c ≥ 500 then
        retryOrFail ("Erro do servidor do provider: " ++ toString c)
      else if c ≥ 400 then
        -- response.raise_for_status() raises HTTPError, a RequestException,
        -- caught by the transport-exception retry branch
        retryOrFail "Erro ao buscar nota fiscal: HTTPError"
      else
        ⟨.ok attempt, calls, waits⟩
    | .timeout => retryOrFail "Timeout ao buscar nota fiscal após tentativas"
    | .reqError => retryOrFail "Erro ao buscar nota fiscal: RequestException"

/-- `ProviderClient._make_request` with its default `max_retries = 3`. -/
def makeRequest (responses : Nat → AttemptOut) (maxRetries : Nat := 3) : ReqOutcome :=
  makeRequestGo responses maxRetries 0 1 0 []

/-- Provider configuration (`settings.PROVIDER_*` as read by
`ProviderClient.__init__`, plus the whitelist read by
`_is_allowed_host`). -/
structure PCfg where
  provider_name : String
  api_url : String
  app_key : String
  app_secret : String
  whitelist_domains : String
deriving Repr

/-- Fixed anti-SSRF allow-list `ALLOWED_HOSTS`. -/
def allowedHostsConst : List String :=
  ["fazenda.gov.br", "nfe.fazenda.gov.br", "www.fazenda.gov.br", "nfce.fazenda.gov.br",
   "sefaz.sp.gov.br", "sefaz.rs.gov.br", "sefaz.mg.gov.br"]

/-- `provider_client._is_allowed_host`: fixed list (exact or dot-suffix
match) then the configured comma-separated whitelist, where a `*.`
entry matches the base domain or any dot-suffix and a plain entry
matches exactly or as a dot-suffix. -/
def isAllowedHost (cfg : PCfg) (host0 : String) : Bool :=
  if host0.isEmpty then false
  else
    let host := pyStrip (pyLower (splitCharHead ':' host0))
    let inFixed := allowedHostsConst.any fun allowed =>
      let al := pyLower allowed
      host == al || strSuffix ("." ++ al).data host.data
    if inFixed then true
    else if !cfg.whitelist_domains.isEmpty then
      let wl := ((splitChar ',' cfg.whitelist_domains.data).map
        (fun d => pyLower (pyStrip (String.mk d)))).filter (fun d => !d.isEmpty)
      wl.any fun domain =>
        if strPrefix "*.".data domain.data then
          let base := String.mk (domain.data.drop 2)
          strSuffix ("." ++ base).data host.data || host == base
        else
          host == domain || strSuffix ("." ++ domain).data host.data
    else false

/-- Scheme and netloc of a URL, the fragment of `urllib.parse.urlparse`
exercised by `_validate_url`: a scheme is the text before `://` when its
characters are valid scheme characters (letter first), lowercased; the
netloc runs to the first `/`, `?` or `#`.  URLs with a `:` but no `//`
(e.g. `javascript:...`) parse with an empty netloc. -/
def urlSchemeNetloc (url : String) : String × String :=
  match splitFirst "://".data url.data with
  | some (pre, after) =>
    let isSchemeChars := !pre.isEmpty &&
      (pre.headD 'a').isAlpha &&
      pre.all (fun c => c.isAlphanum || c = '+' || c = '-' || c = '.')
    if isSchemeChars then
      let netloc := String.mk (after.takeWhile fun c => c ≠ '/' && c ≠ '?' && c ≠ '#')
      (pyLower (String.mk pre), netloc)
    else
      (pyLower (splitCharHead ':' url), "")
  | none =>
    if url.data.contains ':' then (pyLower (splitCharHead ':' url), "")
    else ("", "")

/-- `provider_client._validate_url`: http/https scheme only, non-empty
host, then the host allow-list. -/
def validateUrl (cfg : PCfg) (url : String) : Bool :=
  if url.isEmpty then false
  else
    let (scheme, netloc) := urlSchemeNetloc url
    if scheme ≠ "http" ∧ scheme ≠ "https" then false
    else
      let host := if netloc.isEmpty then "" else splitCharHead ':' netloc
      if host.isEmpty then false
      else isAllowedHost cfg host

/-- Leftmost match of `re.search(r'\d{44}', url)` in
`_extract_key_from_url`: the regex engine tries every position in turn
and matches when the next 44 characters are digits. -/
def firstRun44 : List Char → Option String
  | [] => none
  | c :: rest =>
    let window := (c :: rest).take 44
    if window.length = 44 ∧ window.all Char.isDigit then
      some (String.mk window)
    else firstRun44 rest

/-- `provider_client._extract_key_from_url`. -/
def extractKeyFromUrl (url : String) : Option String :=
  firstRun44 url.data

/-- The deterministic fixture payload of `_get_fake_data`. -/
def fakeData (key : String) : Json :=
  .obj [
    ("access_key", .str key),
    ("store", .obj [("name", .str "SUPERMERCADO FAKE"), ("cnpj", .str "12345678000190")]),
    ("total", .str "125.30"),
    ("subtotal", .str "119.00"),
    ("tax", .str "6.30"),
    ("emitted_at", .str "2024-01-15T10:30:00-03:00"),
    ("items", .arr [
      .obj [("description", .str "ARROZ TIPO 1 5KG"), ("quantity", .int 1),
            ("unit_price", .str "25.50"), ("total_price", .str "25.50"),
            ("tax_value", .str "1.20")],
      .obj [("description", .str "FEIJAO PRETO 1KG"), ("quantity", .int 2),
            ("unit_price", .str "8.50"), ("total_price", .str "17.00"),
            ("tax_value", .str "0.85")],
      .obj [("description", .str "ACUCAR CRISTAL 1KG"), ("quantity", .int 1),
            ("unit_price", .str "4.80"), ("total_price", .str "4.80"),
            ("tax_value", .str "0.24")]])]

/-- Result of a fetch: the fixture payload in fake mode, or the raw HTTP
response (identified by its attempt index; body processing is outside
the modelled scope) in real mode. -/
inductive FetchOk where
  | payload : Json → FetchOk
  | httpResponse : Nat → FetchOk
deriving Repr

/-- Result of `fetch_by_key`/`fetch_by_url` together with the number of
network requests issued and the waits slept. -/
structure FetchOutcome where
  result : Except PErr FetchOk
  calls : Nat
  waits : List Nat
deriving Repr

/-- `ProviderClient.fetch_by_key`: fixture short-circuit, configuration
check, 44-digit key check, then the request loop.  The response-body
classification (XML vs JSON vs embedded error object) happens after the
loop and is not modelled; the result carries the raw response. -/
def fetchByKey (cfg : PCfg) (responses : Nat → AttemptOut) (key : String) : FetchOutcome :=
  if pyLower cfg.provider_name = "fake" then
    ⟨.ok (.payload (fakeData key)), 0, []⟩
  else if cfg.api_url.isEmpty ∨ cfg.app_key.isEmpty ∨ cfg.app_secret.isEmpty then
    ⟨.error (.providerError
      "Provider não configurado. Configure PROVIDER_API_URL, PROVIDER_APP_KEY e PROVIDER_APP_SECRET"),
      0, []⟩
  else if ¬(key.length = 44 ∧ key.data.all Char.isDigit) then
    ⟨.error (.providerError "Chave de acesso inválida: deve ter 44 dígitos"), 0, []⟩
  else
    let r := makeRequest responses
    ⟨r.result.map .httpResponse, r.calls, r.waits⟩

/-- `ProviderClient.fetch_by_url`: fixture short-circuit (extracting a
key from the URL, defaulting to a fixed key, with no validation at
all), then the anti-SSRF validation, key extraction, and delegation to
`fetch_by_key`. -/
def fetchByUrl (cfg : PCfg) (responses : Nat → AttemptOut) (url : String) : FetchOutcome :=
  if pyLower cfg.provider_name = "fake" then
    let accessKey := (extractKeyFromUrl url).getD "35200112345678901234567890123456789012345678"
    ⟨.ok (.payload (fakeData accessKey)), 0, []⟩
  else if ¬validateUrl cfg url then
    ⟨.error (.providerError securityMsg), 0, []⟩
  else
    match extractKeyFromUrl url with
    | none => ⟨.error (.providerError "Não foi possível extrair chave de acesso da URL"), 0, []⟩
    | some accessKey => fetchByKey cfg responses accessKey

/-! ### Name normalization (`app/services/product_matcher.normalize_name`
and `app/services/receipt_service._normalize_product_name`)

The regexes are embedded as character scanners with Python `re`
semantics (leftmost match, ordered alternation, non-overlapping
substitution).  Unicode handling is modelled on the Latin-1 letters that
occur in Portuguese product names: `.lower()` and the NFD
accent-stripping act through explicit tables, and `\w` is
`[a-zA-Z0-9_]` (accents having been stripped before any `\w` test). -/

/-- NFD normalization followed by removal of combining marks, as a map
on precomposed Latin-1 letters (the input is already lowercased). -/
def stripAccent (c : Char) : Char :=
  match c with
  | 'á' | 'à' | 'â' | 'ã' | 'ä' => 'a'
  | 'é' | 'è' | 'ê' | 'ë' => 'e'
  | 'í' | 'ì' | 'î' | 'ï' => 'i'
  | 'ó' | 'ò' | 'ô' | 'õ' | 'ö' => 'o'
  | 'ú' | 'ù' | 'û' | 'ü' => 'u'
  | 'ç' => 'c'
  | 'ñ' => 'n'
  | _ => c

/-- Python `\w` (ASCII fragment): letters, digits, underscore. -/
def isWordChar (c : Char) : Bool :=
  c.isAlphanum || c = '_'

/-- Length matched by `\d+\s*(alt1|alt2|...)` anchored at the start of
`cs`, or `none`: greedy digits, greedy spaces, then the FIRST
alternative (Python alternation is ordered, so e.g. `l` shadows `lt`).
Greediness is equivalent to backtracking here because no alternative
starts with a digit or a space. -/
def matchUnitLen (alts : List String) (cs : List Char) : Option Nat :=
  if (cs.takeWhile Char.isDigit).isEmpty then none
  else
    let dl := (cs.takeWhile Char.isDigit).length
    let sl := ((cs.drop dl).takeWhile isPySpace).length
    match alts.findSome? (fun u =>
        if strPrefix u.data ((cs.drop dl).drop sl) then some u.length else none) with
    | some ul => some (dl + sl + ul)
    | none => none

/-- Fuel-driven scanner of `re.sub(r'\d+\s*(alts)', '', s)`: scan left
to right, removing each leftmost match and continuing after it.  Every
step consumes at least one input character, so any fuel of at least the
input length makes the fuel bound unreachable. -/
def stripUnitsF (alts : List String) : Nat → List Char → List Char
  | 0, _ => []
  | _, [] => []
  | fuel + 1, c :: rest =>
    match matchUnitLen alts (c :: rest) with
    | some n => stripUnitsF alts fuel ((c :: rest).drop n)
    | none => c :: stripUnitsF alts fuel rest

/-- `re.sub(r'\d+\s*(alts)', '', s)`. -/
def stripUnits (alts : List String) (cs : List Char) : List Char :=
  stripUnitsF alts (cs.length + 1) cs

/-- `re.sub(r'\b\d+\b', '', s)`: remove maximal digit runs flanked by
word boundaries.  `prev` records whether the previous character of the
ORIGINAL string is a word character (boundaries are judged on the
original string, and the engine resumes after each removed match). -/
def stripBareF : Nat → Bool → List Char → List Char
  | 0, _, _ => []
  | _, _, [] => []
  | fuel + 1, prev, c :: rest =>
    if c.isDigit ∧ prev = false then
      let run := (c :: rest).takeWhile Char.isDigit
      let after := (c :: rest).drop run.length
      if after.isEmpty || !isWordChar (after.headD ' ') then
        stripBareF fuel true after
      else
        run ++ stripBareF fuel true after
    else
      c :: stripBareF fuel (isWordChar c) rest

/-- `re.sub(r'\b\d+\b', '', s)` (fuel of at least the input length is
always enough, every step consuming at least one character). -/
def stripBare (prev : Bool) (cs : List Char) : List Char :=
  stripBareF (cs.length + 1) prev cs

/-- Python `str.split()` (no argument): split on whitespace runs,
dropping empty pieces. -/
def splitWsGo : List Char → List Char → List String
  | [], acc => if acc.isEmpty then [] else [String.mk acc.reverse]
  | c :: rest, acc =>
    if isPySpace c then
      if acc.isEmpty then splitWsGo rest []
      else String.mk acc.reverse :: splitWsGo rest []
    else splitWsGo rest (c :: acc)

/-- Python `str.split()`. -/
def splitWs (cs : List Char) : List String :=
  splitWsGo cs []

/-- The `STOPWORDS` set of `product_matcher`. -/
def stopwordsConst : List String :=
  ["a", "o", "e", "de", "do", "da", "em", "um", "uma", "para", "com", "por",
   "que", "na", "no", "as", "os", "ao", "pelo", "pela", "dos", "das",
   "tipo", "marca", "sabor", "unidade", "un", "pacote", "pac",
   "caixa", "cx", "embalagem", "emb"]

/-- Alternation of the unit regex in `product_matcher.normalize_name`,
in source order. -/
def unitAltsMatcher : List String :=
  ["kg", "g", "ml", "l", "lt", "un", "pct", "pac", "cx", "emb", "und", "gr", "mg", "cl", "dl"]

/-- Alternation of the unit regex in
`receipt_service._normalize_product_name`, in source order. -/
def unitAltsService : List String :=
  ["kg", "g", "ml", "l", "un", "pct", "pac", "cx", "lt", "ml"]

/-- `product_matcher.normalize_name`: lowercase, strip accents, remove
number+unit tokens, remove bare numbers, drop stopwords and words of
length ≤ 2, replace non-word punctuation by spaces, collapse
whitespace. -/
def normalizeName (text : String) : String :=
  if text.isEmpty then ""
  else
    let n1 := pyStrip (pyLower text)
    let n2 := n1.data.map stripAccent
    let n3 := stripUnits unitAltsMatcher n2
    let n4 := stripBare false n3
    let ws := (splitWs n4).filter fun w => !stopwordsConst.contains w && w.length > 2
    let n5 := " ".intercalate ws
    let n6 := n5.data.map fun c => if isWordChar c || isPySpace c then c else ' '
    pyStrip (" ".intercalate (splitWs n6))

/-- `receipt_service._normalize_product_name`: lowercase, strip accents,
remove number+unit tokens (its own, shorter alternation), collapse
whitespace.  Bare numbers, stopwords and punctuation are KEPT. -/
def rsNormalizeProductName (name : String) : String :=
  let n1 := pyStrip (pyLower name)
  let n2 := n1.data.map stripAccent
  let n3 := stripUnits unitAltsService n2
  " ".intercalate (splitWs n3)

/-! ### Product matcher (`app/services/product_matcher.py`) -/

/-- Catalog row of the `products` table (the unused `category_id` is
omitted).  `barcode` is stored as the raw payload value the code put
there. -/
structure Product where
  id : Nat
  normalized_name : String
  barcode : Json
deriving Repr

/-- Matcher-visible database state: the product catalog in insertion
order, plus the next fresh product id. -/
structure MState where
  catalog : List Product
  nextPid : Nat
deriving Repr

/-- A value returned by the dynamically-typed resolution functions:
either a product id (UUID) or a plain string. -/
inductive MRet where
  | uuid : Nat → MRet
  | strv : String → MRet
deriving DecidableEq, Repr

/-- `product_matcher.match_by_barcode`: first catalog row whose barcode
equals the query. -/
def matchByBarcode (catalog : List Product) (barcode : Json) : Option Nat :=
  if ¬pyTruthy barcode then none
  else (catalog.find? fun p => jsonBEq p.barcode barcode).map (·.id)

/-- Model of `rapidfuzz.process.extractOne(query, choices, scorer,
score_cutoff)` over a mapping `{id: name}`: candidates scoring below the
cutoff are ignored, the best score wins, ties keep the earliest, and the
result tuple is `(choice, score, key)` — the matched VALUE first and the
mapping KEY last, per the rapidfuzz documentation.  The scorer
(`fuzz.WRatio`) is external and passed as a parameter. -/
def extractOne (scorer : String → String → Nat) (query : String)
    (choices : List (Nat × String)) (cutoff : Nat) : Option (String × Nat × Nat) :=
  choices.foldl
    (fun best kv =>
      let s := scorer query kv.2
      if s < cutoff then best
      else match best with
        | none => some (kv.2, s, kv.1)
        | some (_, bs, _) => if s > bs then some (kv.2, s, kv.1) else best)
    none

/-- `product_matcher.fuzzy_match_name`: normalize the query, score it
against the normalized names of all products, and return the winner.
The source unpacks the result as `product_id, score, matched_name =
result` and returns `product_id` — but the first tuple element is the
matched NAME, so the returned value is the matched normalized name, not
the product id. -/
def fuzzyMatchName (scorer : String → String → Nat) (catalog : List Product)
    (name : String) (threshold : Nat) : Option String :=
  if name.isEmpty then none
  else
    let normalized := normalizeName name
    if normalized.isEmpty then none
    else if catalog.isEmpty then none
    else
      match extractOne scorer normalized (catalog.map fun p => (p.id, p.normalized_name)) threshold with
      | some (choice, _, _) => some choice
      | none => none

/-- Embedding-search configuration (`settings.SUPABASE_*`). -/
structure MatcherCfg where
  supabase_url : String
  supabase_key : String
deriving Repr

/-- `product_matcher.embed_match_name`: empty when the vector DB is not
configured (or its dependencies are missing), otherwise the ids returned
by the external `match_products` search (cosine threshold 0.7, top 5),
modelled by the parameter `vecdb`. -/
def embedMatchName (mcfg : MatcherCfg) (vecdb : String → List Nat) (name : String) : List Nat :=
  if mcfg.supabase_url.isEmpty || mcfg.supabase_key.isEmpty then []
  else vecdb (normalizeName name)

/-- `product_matcher.get_or_create_product_from_item`: barcode match,
then fuzzy match (threshold 85), then embedding match, then create.  No
strategy modifies existing catalog rows: in particular no barcode is
ever backfilled here. -/
def getOrCreateProductFromItem (mcfg : MatcherCfg) (scorer : String → String → Nat)
    (vecdb : String → List Nat) (st : MState) (description : String) (barcode : Json) :
    MRet × MState :=
  let r1 := if pyTruthy barcode then matchByBarcode st.catalog barcode else none
  match r1 with
  | some pid => (.uuid pid, st)
  | none =>
    let r2 := if ¬description.isEmpty then fuzzyMatchName scorer st.catalog description 85 else none
    match r2 with
    | some choice => (.strv choice, st)
    | none =>
      let r3 := if ¬description.isEmpty then embedMatchName mcfg vecdb description else []
      match r3 with
      | pid :: _ => (.uuid pid, st)
      | [] =>
        let normalized := if ¬description.isEmpty then normalizeName description else "produto sem nome"
        (.uuid st.nextPid, ⟨st.catalog ++ [⟨st.nextPid, normalized, barcode⟩], st.nextPid + 1⟩)

/-! ### Receipt service (`app/services/receipt_service.py`) -/

/-- `receipt_service.get_or_create_product`: exact lookup by the
service's own normalized name, backfilling the barcode of a found
product that lacks one, creating a product on a miss.  The in-place ORM
update is modelled by replacing the row with the same id. -/
def rsGetOrCreateProduct (st : MState) (description : String) (barcode : Json) :
    Product × MState :=
  let normalized := rsNormalizeProductName description
  match st.catalog.find? (fun p => p.normalized_name == normalized) with
  | some p =>
    if pyTruthy barcode ∧ ¬pyTruthy p.barcode then
      let p' := { p with barcode := barcode }
      (p', { st with catalog := st.catalog.map fun q => if q.id = p.id then p' else q })
    else (p, st)
  | none =>
    (⟨st.nextPid, normalized, barcode⟩, ⟨st.catalog ++ [⟨st.nextPid, normalized, barcode⟩], st.nextPid + 1⟩)

/-- Persisted receipt row (`receipts` table): the claim-relevant
columns. -/
structure Rcpt where
  id : Nat
  userId : String
  accessKey : String
deriving DecidableEq, Repr

/-- Database state visible to the orchestrator: receipts and the
product catalog (the `receipts.access_key` column is indexed but has NO
unique constraint). -/
structure SysState where
  receipts : List Rcpt
  nextRid : Nat
  catalog : List Product
  nextPid : Nat
deriving Repr

/-- `receipt_service.check_receipt_exists`: first receipt of the user
with the given access key. -/
def checkReceiptExists (receipts : List Rcpt) (uid key : String) : Option Rcpt :=
  receipts.find? fun r => r.userId == uid && r.accessKey == key

/-- The item loop of `save_receipt`: resolve each item through
`receipt_service.get_or_create_product` (nothing else — none of the
matcher's barcode/fuzzy/embedding strategies), producing the
`receipt_items` rows as (description, product id) pairs. -/
def saveItemsGo : List CanonItem → MState → List (String × Nat) → List (String × Nat) × MState
  | [], st, acc => (acc, st)
  | it :: rest, st, acc =>
    let (p, st') := rsGetOrCreateProduct st it.description it.barcode
    saveItemsGo rest st' (acc ++ [(it.description, p.id)])

/-- `receipt_service.save_receipt`: insert the receipt row, then create
or find a product for every item and insert the item rows (encryption of
the raw payload is outside the modelled scope; the write is atomic, and
failure paths do not arise in the model). -/
def saveReceipt (st : SysState) (uid : String) (pd : Canon) :
    Rcpt × List (String × Nat) × SysState :=
  let r : Rcpt := ⟨st.nextRid, uid, pd.access_key⟩
  let (items, mst) := saveItemsGo pd.items ⟨st.catalog, st.nextPid⟩ []
  (r, items, ⟨st.receipts ++ [r], st.nextRid + 1, mst.catalog, mst.nextPid⟩)

/-! ### Ingestion orchestrator (`app/routers/receipts.py` and
`app/tasks/receipt_tasks.py`) -/

/-- Four-digit lowercase hex. -/
def hex4 (n : Nat) : String :=
  let d := fun k => "0123456789abcdef".data.getD (k % 16) '0'
  String.mk [d (n / 4096), d (n / 256), d (n / 16), d n]

/-- JSON string escaping with `ensure_ascii=True` (the `json.dumps`
default): quote, backslash and controls escaped, non-ASCII as
`\uXXXX` (payloads here stay in the BMP). -/
def jsonEscChar (c : Char) : String :=
  if c = '"' then "\\\""
  else if c = '\\' then "\\\\"
  else if c = '\n' then "\\n"
  else if c = '\t' then "\\t"
  else if c = '\r' then "\\r"
  else if c.toNat < 32 || c.toNat > 126 then "\\u" ++ hex4 c.toNat
  else String.singleton c

mutual

/-- Python `json.dumps` with default separators `(', ', ': ')`. -/
def jsonDumps : Json → String
  | .null => "null"
  | .bool b => if b then "true" else "false"
  | .int n => toString n
  | .str s => "\"" ++ String.join (s.data.map jsonEscChar) ++ "\""
  | .arr xs => "[" ++ jsonDumpsList xs ++ "]"
  | .obj kvs => "\x7b" ++ jsonDumpsKvs kvs ++ "\x7d"

/-- Comma-joined dumps of a list. -/
def jsonDumpsList : List Json → String
  | [] => ""
  | [x] => jsonDumps x
  | x :: y :: xs => jsonDumps x ++ ", " ++ jsonDumpsList (y :: xs)

/-- Comma-joined dumps of dict entries. -/
def jsonDumpsKvs : List (String × Json) → String
  | [] => ""
  | [kv] => "\"" ++ String.join (kv.1.data.map jsonEscChar) ++ "\": " ++ jsonDumps kv.2
  | kv :: l :: kvs =>
      "\"" ++ String.join (kv.1.data.map jsonEscChar) ++ "\": " ++ jsonDumps kv.2 ++ ", " ++
      jsonDumpsKvs (l :: kvs)

end

/-- Python `len` on payload values; `none` models `TypeError`. -/
def pyLen : Json → Option Nat
  | .arr xs => some xs.length
  | .str s => some s.length
  | .obj kvs => some kvs.length
  | _ => none

/-- `receipts._should_process_in_background`: serialized size above
50000 bytes, or more than 50 items (any internal error also defers). -/
def shouldProcessInBackground (raw : Json) : Bool :=
  let size := (jsonDumps raw).utf8ByteSize
  if size > 50000 then true
  else
    match raw with
    | .obj _ =>
      if raw.hasKey "items" then
        match pyLen (raw.getN "items") with
        | some n => n > 50
        | none => true
      else if raw.hasKey "det" then
        match raw.getN "det" with
        | .arr xs => xs.length > 50
        | _ => false
      else false
    | _ => false

/-- Resolution of the final access key in `scan_receipt`
(`parsed_data.get("access_key") or access_key`). -/
def finalAccessKey (pd : Canon) (extractedKey : String) : String :=
  if ¬pd.access_key.isEmpty then pd.access_key else extractedKey

/-- Terminal outcome of one call to the `/receipts/scan` endpoint
(HTTP 200 saved / 202 accepted / 409 conflict / 400 / 500). -/
inductive Outcome where
  | saved : Nat → Outcome
  | accepted : Outcome
  | conflict : Nat → Outcome
  | invalidQr : Outcome
  | providerFail : Outcome
  | parseFail : Outcome
deriving DecidableEq, Repr

/-- Side effects observed during one scan: whether a provider fetch was
issued and whether `parse_note` was invoked inline. -/
structure Trace where
  fetched : Bool
  parsed : Bool
deriving DecidableEq, Repr

/-- `receipts.scan_receipt` from QR extraction onward (rate limiting and
consent checks are prior guards outside the pipeline).  The extractor
result and the provider are parameters: `extractRes` is the value of
`extract_key_or_url(qr_text)`, and `fetchUrl`/`fetchKey` give the
provider responses.  Key points mirrored from the source: the provider
fetch and `parse_note` BOTH run before the idempotency check, and the
deferral decision comes after it. -/
def scanReceipt (lib : PyDateLib) (now : Nat)
    (fetchUrl fetchKey : String → Except PErr Json)
    (extractRes : Except String (Option String × Option String))
    (uid : String) (st : SysState) : Outcome × Trace × SysState :=
  match extractRes with
  | .error _ => (.invalidQr, ⟨false, false⟩, st)
  | .ok (urlOpt, keyOpt) =>
    let fetchRes := match urlOpt with
      | some u => fetchUrl u
      | none => fetchKey (keyOpt.getD "")
    match fetchRes with
    | .error _ => (.providerFail, ⟨true, false⟩, st)
    | .ok raw =>
      match parseNote lib now raw with
      | .error _ => (.parseFail, ⟨true, true⟩, st)
      | .ok pd =>
        let finalKey := finalAccessKey pd (keyOpt.getD "")
        if finalKey.isEmpty then (.parseFail, ⟨true, true⟩, st)
        else
          let pd := { pd with access_key := finalKey }
          match checkReceiptExists st.receipts uid finalKey with
          | some r => (.conflict r.id, ⟨true, true⟩, st)
          | none =>
            if shouldProcessInBackground raw then (.accepted, ⟨true, true⟩, st)
            else
              let (r, _, st') := saveReceipt st uid pd
              (.saved r.id, ⟨true, true⟩, st')

/-- `receipt_tasks.process_receipt_task`: parse and save.  There is no
idempotency check on this path — `check_receipt_exists` is never
called — so a redelivered task saves again.  A parse failure is
retried by Celery (modelled as `none` with the state unchanged). -/
def processReceiptTask (lib : PyDateLib) (now : Nat) (uid : String) (rawNote : Json)
    (accessKey : String) (st : SysState) : Option Nat × SysState :=
  match parseNote lib now rawNote with
  | .error _ => (none, st)
  | .ok pd =>
    let pd := if pd.access_key.isEmpty ∧ ¬accessKey.isEmpty then
        { pd with access_key := accessKey } else pd
    let (r, _, st') := saveReceipt st uid pd
    (some r.id, st')

/-! ## Theorems -/

/-- Date library in which every string parse fails; used where the date
path is not exercised by the evaluated payload. -/
def pyDateNone : PyDateLib := ⟨fun _ => none, fun _ _ => none⟩

/-- A fixed 44-digit access key. -/
def key44 : String := "35200112345678901234567890123456789012345678"

/-- Attempt outcomes retried by the request loop per the claim: 5xx
statuses, timeouts, and other transport exceptions. -/
def retryableOut : AttemptOut → Bool
  | .status c => 500 ≤ c
  | .timeout => true
  | .reqError => true

/-- A retryable attempt with fuel remaining recurses with doubled
backoff, one more call, and the wait `backoff * 2 ^ attempt` recorded. -/
theorem makeRequestGo_retry (responses : Nat → AttemptOut) (fuel attempt backoff calls : Nat)
    (waits : List Nat) (h : retryableOut (responses attempt) = true) (hf : 1 ≤ fuel) :
    makeRequestGo responses (fuel + 1) attempt backoff calls waits =
      makeRequestGo responses fuel (attempt + 1) (backoff * 2) (calls + 1)
        (waits ++ [backoff * 2 ^ attempt]) := by
  rw [makeRequestGo]
  cases ho : responses attempt with
  | status c =>
    rw [ho] at h
    simp only [retryableOut, decide_eq_true_eq] at h
    have h1 : ¬(c = 401 ∨ c = 403) := by omega
    have h2 : ¬c = 404 := by omega
    have h3 : ¬c = 429 := by omega
    simp [h1, h2, h3, h, hf]
  | timeout => simp [ho, hf]
  | reqError => simp [ho, hf]

/-- A retryable attempt with no fuel left fails with a generic
`ProviderError` after its single call. -/
theorem makeRequestGo_exhaust (responses : Nat → AttemptOut) (attempt backoff calls : Nat)
    (waits : List Nat) (h : retryableOut (responses attempt) = true) :
    ∃ m, makeRequestGo responses 1 attempt backoff calls waits =
      ⟨.error (.providerError m), calls + 1, waits⟩ := by
  rw [makeRequestGo]
  cases ho : responses attempt with
  | status c =>
    rw [ho] at h
    simp only [retryableOut, decide_eq_true_eq] at h
    have h1 : ¬(c = 401 ∨ c = 403) := by omega
    have h2 : ¬c = 404 := by omega
    have h3 : ¬c = 429 := by omega
    exact ⟨"Erro do servidor do provider: " ++ toString c, by simp [h1, h2, h3, h]⟩
  | timeout => exact ⟨"Timeout ao buscar nota fiscal após tentativas", by simp⟩
  | reqError => exact ⟨"Erro ao buscar nota fiscal: RequestException", by simp⟩

/-- The loop never issues more calls than it has fuel. -/
theorem makeRequestGo_calls_le (responses : Nat → AttemptOut) (fuel : Nat) :
    ∀ attempt backoff calls waits,
      (makeRequestGo responses fuel attempt backoff calls waits).calls ≤ calls + fuel := by
  induction fuel with
  | zero => intro attempt backoff calls waits; simp [makeRequestGo]
  | succ n ih =>
    intro attempt backoff calls waits
    rw [makeRequestGo]
    cases responses attempt with
    | status c =>
      simp only []
      split
      · simp
      · split
        · simp
        · split
          · simp
          · split
            · split
              · exact le_trans (ih _ _ _ _) (by omega)
              · simp
            · split
              · split
                · exact le_trans (ih _ _ _ _) (by omega)
                · simp
              · simp
    | timeout =>
      simp only []
      split
      · exact le_trans (ih _ _ _ _) (by omega)
      · simp
    | reqError =>
      simp only []
      split
      · exact le_trans (ih _ _ _ _) (by omega)
      · simp

/-- C4, counterexample: with every attempt answering 500, the two
backoff waits of `_make_request` are 1 and 4 time units (the code
multiplies an already-doubling `backoff` by `2 ** attempt`), not the 1
and 2 the claim states. -/
theorem C4_counterexample :
    (makeRequest (fun _ => .status 500) 3).waits = [1, 4] ∧
    ([1, 4] : List Nat) ≠ [1, 2] := by
  exact ⟨rfl, by decide⟩

/-- C4 (amended): in `ProviderClient._make_request`, a 404 raises
`NotFound` after exactly one request with no waits; 401/403 raise
`Unauthorized` and 429 raises `RateLimited` likewise without retry; a
2xx succeeds on the first attempt; at most 3 requests are ever issued;
and when all three attempts are retryable (5xx, timeout or transport
exception) the loop issues exactly 3 requests, sleeps waits of 1 then
4 time units (backoff starts at 1 but quadruples, since the doubling
backoff is further multiplied by `2 ** attempt`), and exhaustion
raises the generic `ProviderError` (the spec's `TransientError`). -/
theorem C4_retry_taxonomy (responses : Nat → AttemptOut) :
    (responses 0 = .status 404 →
      makeRequest responses 3 = ⟨.error (.notFound "Nota fiscal não encontrada"), 1, []⟩) ∧
    ((responses 0 = .status 401 ∨ responses 0 = .status 403) →
      makeRequest responses 3 =
        ⟨.error (.unauthorized "Erro de autenticação com o provider"), 1, []⟩) ∧
    (responses 0 = .status 429 →
      makeRequest responses 3 =
        ⟨.error (.rateLimited "Rate limit excedido. Tente novamente mais tarde."), 1, []⟩) ∧
    (responses 0 = .status 200 → makeRequest responses 3 = ⟨.ok 0, 1, []⟩) ∧
    ((makeRequest responses 3).calls ≤ 3) ∧
    ((∀ i, i < 3 → retryableOut (responses i) = true) →
      (makeRequest responses 3).calls = 3 ∧
      (makeRequest responses 3).waits = [1, 4] ∧
      ∃ m, (makeRequest responses 3).result = .error (.providerError m)) := by
  refine ⟨?_, ?_, ?_, ?_, ?_, ?_⟩
  · intro h; rw [makeRequest, makeRequestGo, h]; simp
  · intro h
    rw [makeRequest, makeRequestGo]
    rcases h with h | h <;> rw [h] <;> simp
  · intro h; rw [makeRequest, makeRequestGo, h]; simp
  · intro h; rw [makeRequest, makeRequestGo, h]; simp
  · exact makeRequestGo_calls_le responses 3 0 1 0 []
  · intro h
    have e1 := makeRequestGo_retry responses 2 0 1 0 [] (h 0 (by omega)) (by omega)
    have e2 := makeRequestGo_retry responses 1 1 2 1 [1 * 2 ^ 0] (h 1 (by omega)) (by omega)
    obtain ⟨m, e3⟩ := makeRequestGo_exhaust responses 2 4 2 ([1 * 2 ^ 0] ++ [2 * 2 ^ 1])
      (h 2 (by omega))
    rw [makeRequest]
    show (makeRequestGo responses (2 + 1) 0 1 0 []).calls = 3 ∧ _
    rw [e1]
    show (makeRequestGo responses (1 + 1) 1 2 1 ([] ++ [1 * 2 ^ 0])).calls = 3 ∧ _
    simp only [List.nil_append]
    rw [e2, e3]
    exact ⟨rfl, rfl, m, rfl⟩

/-- Witness for C4: concrete response streams exercising the 404,
unauthorized, rate-limit, success and exhaustion branches. -/
theorem C4_retry_taxonomy_witness :
    (makeRequest (fun _ => .status 404) 3).calls = 1 ∧
    (makeRequest (fun _ => .status 401) 3).calls = 1 ∧
    (makeRequest (fun _ => .status 429) 3).calls = 1 ∧
    (makeRequest (fun _ => .status 200) 3).calls = 1 ∧
    (makeRequest (fun _ => .status 500) 3).calls = 3 ∧
    (makeRequest (fun _ => .timeout) 3).waits = [1, 4] := by
  refine ⟨?_, ?_, ?_, ?_, ?_, ?_⟩
  · rw [(C4_retry_taxonomy (fun _ => .status 404)).1 rfl]
  · rw [(C4_retry_taxonomy (fun _ => .status 401)).2.1 (Or.inl rfl)]
  · rw [(C4_retry_taxonomy (fun _ => .status 429)).2.2.1 rfl]
  · rw [(C4_retry_taxonomy (fun _ => .status 200)).2.2.2.1 rfl]
  · exact ((C4_retry_taxonomy (fun _ => .status 500)).2.2.2.2.2
      (fun i _ => by simp [retryableOut])).1
  · exact ((C4_retry_taxonomy (fun _ => .timeout)).2.2.2.2.2
      (fun i _ => by simp [retryableOut])).2.1

/-- The host `_validate_url` extracts: first `:`-part of the netloc,
empty when there is no netloc. -/
def hostOfUrl (url : String) : String :=
  if (urlSchemeNetloc url).2.isEmpty then ""
  else splitCharHead ':' (urlSchemeNetloc url).2

/-- A URL with a non-http(s) scheme or a disallowed host fails
`_validate_url`. -/
theorem validateUrl_false (cfg : PCfg) (url : String)
    (hbad : ¬((urlSchemeNetloc url).1 = "http" ∨ (urlSchemeNetloc url).1 = "https") ∨
      isAllowedHost cfg (hostOfUrl url) = false) :
    validateUrl cfg url = false := by
  rw [validateUrl]
  split
  · rfl
  · rcases hsn : urlSchemeNetloc url with ⟨s, n⟩
    rw [hostOfUrl, hsn] at hbad
    simp only [hsn]
    rcases hbad with hb | hb
    · push_neg at hb
      simp [hb.1, hb.2]
    · by_cases hs : s ≠ "http" ∧ s ≠ "https"
      · simp [hs.1, hs.2]
      · rw [if_neg hs]
        by_cases hh : (if n.isEmpty then "" else splitCharHead ':' n).isEmpty
        · simp only [hh, if_true]
        · simp only [hh, if_false]
          exact hb

/-- C2 (amended): in a real (non-fake) provider mode, `fetch_by_url`
rejects every URL whose scheme is not http/https or whose host is not on
the allow-list, raising the SSRF `ProviderError` (the spec's
`SecurityError`) with zero network calls — before any I/O.  In `fake`
mode, however, no network call is made either but NO validation runs:
the fixture payload is returned instead of an error. -/
theorem C2_ssrf_rejection (cfg : PCfg) (responses : Nat → AttemptOut) (url : String) :
    (pyLower cfg.provider_name ≠ "fake" →
      (¬((urlSchemeNetloc url).1 = "http" ∨ (urlSchemeNetloc url).1 = "https") ∨
        isAllowedHost cfg (hostOfUrl url) = false) →
      fetchByUrl cfg responses url = ⟨.error (.providerError securityMsg), 0, []⟩) ∧
    (pyLower cfg.provider_name = "fake" →
      (fetchByUrl cfg responses url).calls = 0 ∧
      exOk (fetchByUrl cfg responses url).result = true) := by
  constructor
  · intro hmode hbad
    have hv := validateUrl_false cfg url hbad
    rw [fetchByUrl, if_neg hmode, if_pos (by simp [hv])]
  · intro hmode
    rw [fetchByUrl, if_pos hmode]
    exact ⟨rfl, rfl⟩

/-- Witness for C2: a webmania-mode configuration rejects an `ftp` URL
and a URL on an unlisted host with zero calls, and a fake-mode
configuration issues no call. -/
theorem C2_ssrf_rejection_witness :
    fetchByUrl ⟨"webmania", "https://api.example", "k", "s", ""⟩ (fun _ => .timeout)
      "ftp://nfe.fazenda.gov.br/nota" = ⟨.error (.providerError securityMsg), 0, []⟩ ∧
    fetchByUrl ⟨"webmania", "https://api.example", "k", "s", ""⟩ (fun _ => .timeout)
      "https://attacker.example/nota" = ⟨.error (.providerError securityMsg), 0, []⟩ ∧
    (fetchByUrl ⟨"fake", "", "", "", ""⟩ (fun _ => .timeout) "https://attacker.example/nota").calls
      = 0 := by
  refine ⟨?_, ?_, ?_⟩
  · exact (C2_ssrf_rejection ⟨"webmania", "https://api.example", "k", "s", ""⟩ (fun _ => .timeout)
      "ftp://nfe.fazenda.gov.br/nota").1 (by decide) (Or.inl (by decide))
  · exact (C2_ssrf_rejection ⟨"webmania", "https://api.example", "k", "s", ""⟩ (fun _ => .timeout)
      "https://attacker.example/nota").1 (by decide) (Or.inr (by decide))
  · exact ((C2_ssrf_rejection ⟨"fake", "", "", "", ""⟩ (fun _ => .timeout)
      "https://attacker.example/nota").2 (by decide)).1

/-- C2, counterexample: in `fake` provider mode a URL that fails
validation (`ftp` scheme) does NOT raise — `fetch_by_url` skips
validation entirely and returns the fixture payload (with zero network
calls). -/
theorem C2_counterexample :
    validateUrl ⟨"fake", "", "", "", ""⟩ "ftp://attacker.example/nota" = false ∧
    (fetchByUrl ⟨"fake", "", "", "", ""⟩ (fun _ => .timeout) "ftp://attacker.example/nota").calls
      = 0 ∧
    exOk (fetchByUrl ⟨"fake", "", "", "", ""⟩ (fun _ => .timeout)
      "ftp://attacker.example/nota").result = true := by
  exact ⟨by decide, rfl, rfl⟩

/-! ### C3: parser validation -/

/-- A fake-shape payload with no access key and an empty item list. -/
def fakeNoValidation : Json :=
  .obj [("store", .obj []), ("total", .int 10), ("items", .arr [])]

/-- C3, counterexample: the fake/fixture shape performs NO validation —
a payload with no access key at all and an empty item list parses
successfully (access key `""`, zero items), so the claimed validation
does not hold for all three input shapes. -/
theorem C3_counterexample :
    fakeNoValidation.hasKey "access_key" = false ∧
    fakeNoValidation.getN "items" = .arr [] ∧
    exOk (parseNote pyDateNone 0 fakeNoValidation) = true ∧
    (parseNote pyDateNone 0 fakeNoValidation).map (fun c => c.access_key) = .ok "" ∧
    (parseNote pyDateNone 0 fakeNoValidation).map (fun c => c.items.length) = .ok 0 :=
  ⟨rfl, rfl, rfl, rfl, rfl⟩

/-- C3 (amended): the access-key and non-empty-items validations hold
for the provider (`retorno`) shape and the XML shape, with the key
checked for LENGTH 44 of its string form (not for being 44 digits); the
fake/fixture shape performs no such validation. -/
theorem C3_validation (lib : PyDateLib) (now : Nat) (raw : Json) :
    (¬(raw.hasKey "store" ∧ raw.hasKey "total" ∧ raw.hasKey "items") →
      raw.hasKey "retorno" = true →
      (¬pyTruthy (providerAccessKeyJson (providerRetorno raw)) ∨
        (pyStr (providerAccessKeyJson (providerRetorno raw))).length ≠ 44 ∨
        (providerItems (providerProdutos (providerRetorno raw))).1 = []) →
      exOk (parseNote lib now raw) = false) ∧
    (¬(raw.hasKey "store" ∧ raw.hasKey "total" ∧ raw.hasKey "items") →
      raw.hasKey "retorno" = false →
      (extractAccessKey (normalizeStructure raw) = "" ∨
        extractItems (normalizeStructure raw) = []) →
      exOk (parseNote lib now raw) = false) := by
  constructor
  · intro hfake hret hbad
    rw [parseNote, if_neg hfake, if_pos (by simp [hret])]
    rw [parseProviderFormat]
    by_cases h1 : pyTruthy (providerRetorno raw)
    · rw [if_neg (by simpa using h1)]
      rcases hbad with hb | hb | hb
      · rw [if_pos (Or.inl (by simpa using hb))]; rfl
      · rw [if_pos (Or.inr hb)]; rfl
      · by_cases h2 : ¬pyTruthy (providerAccessKeyJson (providerRetorno raw)) ∨
          (pyStr (providerAccessKeyJson (providerRetorno raw))).length ≠ 44
        · rw [if_pos h2]; rfl
        · rw [if_neg h2]
          rcases hpi : providerItems (providerProdutos (providerRetorno raw)) with ⟨items, s, t⟩
          rw [hpi] at hb
          have hi : items = [] := hb
          simp only [hpi]
          rw [hi]
          rfl
    · rw [if_pos (by simpa using h1)]; rfl
  · intro hfake hret hbad
    rw [parseNote, if_neg hfake, if_neg (by simp [hret]), parseXmlFormat]
    cases ht : extractTotals (normalizeStructure raw) with
    | error e => rfl
    | ok triple =>
      rcases triple with ⟨s, tv, tt⟩
      rcases hbad with hb | hb
      · rw [hb]; rfl
      · rw [hb]
        cases ha : (extractAccessKey (normalizeStructure raw)).isEmpty
        · rfl
        · rfl

/-- A provider-shape payload whose key has length 3. -/
def provBadKey : Json := .obj [("retorno", .obj [("chave", .str "123")])]

/-- A payload matching none of the key-bearing paths of the XML shape. -/
def xmlNothing : Json := .obj [("foo", .int 1)]

/-- Witness for C3: the provider shape rejects a short key and the XML
shape rejects a payload with no discoverable access key. -/
theorem C3_validation_witness :
    exOk (parseNote pyDateNone 0 provBadKey) = false ∧
    exOk (parseNote pyDateNone 0 xmlNothing) = false :=
  ⟨(C3_validation pyDateNone 0 provBadKey).1 (by decide) (by decide)
     (Or.inr (Or.inl (by decide))),
   (C3_validation pyDateNone 0 xmlNothing).2 (by decide) (by decide)
     (Or.inl (by decide))⟩

/-! ### C5: parse determinism and the wall clock -/

/-- Replace the timestamp of a parse result by a fixed value, leaving
every other field (and the error case) unchanged. -/
def eraseTime (e : Except ParseErr Canon) : Except ParseErr Canon :=
  e.map fun c => { c with emitted_at := .nowAt 0 }

/-- The fake-shape parse depends on the clock only through
`emitted_at`. -/
theorem parseFakeFormat_time (lib : PyDateLib) (raw : Json) (n1 n2 : Nat) :
    eraseTime (parseFakeFormat lib n1 raw) = eraseTime (parseFakeFormat lib n2 raw) := by
  rw [parseFakeFormat, parseFakeFormat]
  repeat' split
  all_goals rfl

/-- The provider-shape parse depends on the clock only through
`emitted_at`. -/
theorem parseProviderFormat_time (lib : PyDateLib) (raw : Json) (n1 n2 : Nat) :
    eraseTime (parseProviderFormat lib n1 raw) = eraseTime (parseProviderFormat lib n2 raw) := by
  rw [parseProviderFormat, parseProviderFormat]
  simp only []
  repeat' split
  all_goals rfl

/-- The XML-shape parse depends on the clock only through
`emitted_at`. -/
theorem parseXmlFormat_time (lib : PyDateLib) (raw : Json) (n1 n2 : Nat) :
    eraseTime (parseXmlFormat lib n1 raw) = eraseTime (parseXmlFormat lib n2 raw) := by
  rw [parseXmlFormat, parseXmlFormat]
  repeat' split
  all_goals rfl

/-- `parse_note` depends on the clock only through `emitted_at`. -/
theorem parseNote_time (lib : PyDateLib) (raw : Json) (n1 n2 : Nat) :
    eraseTime (parseNote lib n1 raw) = eraseTime (parseNote lib n2 raw) := by
  rw [parseNote, parseNote]
  by_cases h1 : raw.hasKey "store" ∧ raw.hasKey "total" ∧ raw.hasKey "items"
  · rw [if_pos h1, if_pos h1]; exact parseFakeFormat_time lib raw n1 n2
  · rw [if_neg h1, if_neg h1]
    by_cases h2 : raw.hasKey "retorno"
    · rw [if_pos h2, if_pos h2]; exact parseProviderFormat_time lib raw n1 n2
    · rw [if_neg h2, if_neg h2]; exact parseXmlFormat_time lib raw n1 n2

/-- C5 (amended): `parse_note` is deterministic in everything EXCEPT
the emission timestamp: two parses of the same payload at different
clock instants agree on every other field, and they are fully identical
exactly when their `emitted_at` values agree — which fails precisely
when the emission date is absent or unparseable, since the code then
stores `datetime.now()`. -/
theorem C5_parse_determinism (lib : PyDateLib) (raw : Json) (n1 n2 : Nat) :
    eraseTime (parseNote lib n1 raw) = eraseTime (parseNote lib n2 raw) ∧
    ((parseNote lib n1 raw).map Canon.emitted_at = (parseNote lib n2 raw).map Canon.emitted_at →
      parseNote lib n1 raw = parseNote lib n2 raw) := by
  refine ⟨parseNote_time lib raw n1 n2, fun hem => ?_⟩
  have het := parseNote_time lib raw n1 n2
  cases h1 : parseNote lib n1 raw with
  | error e1 =>
    cases h2 : parseNote lib n2 raw with
    | error e2 =>
      rw [h1, h2] at het
      simpa [eraseTime, Except.map] using het
    | ok c2 =>
      rw [h1, h2] at het
      simp [eraseTime, Except.map] at het
  | ok c1 =>
    cases h2 : parseNote lib n2 raw with
    | error e2 =>
      rw [h1, h2] at het
      simp [eraseTime, Except.map] at het
    | ok c2 =>
      rw [h1, h2] at het hem
      simp only [eraseTime, Except.map, Except.ok.injEq] at het
      simp only [Except.map, Except.ok.injEq] at hem
      cases c1
      cases c2
      simp_all

/-- A provider-shape payload with a valid key, one product, and no
emission-date field at all. -/
def provNoDate : Json :=
  .obj [("retorno", .obj [("chave", .str key44),
    ("produto", .arr [.obj [("descricao", .str "X"), ("valor_total", .str "5")]])])]

/-- Witness for C5: on the fixture payload (whose emission date the
date library parses), two parses at different instants are identical. -/
theorem C5_parse_determinism_witness :
    parseNote ⟨fun s => some (.iso s), fun f s => some (.fmt f s)⟩ 0
        (fakeData key44) =
      parseNote ⟨fun s => some (.iso s), fun f s => some (.fmt f s)⟩ 1
        (fakeData key44) :=
  (C5_parse_determinism ⟨fun s => some (.iso s), fun f s => some (.fmt f s)⟩
    (fakeData key44) 0 1).2 rfl

/-- C5, counterexample: parsing is NOT deterministic for a payload
whose emission date is absent — the stored `emitted_at` is the wall
clock at the moment of the call, so two calls (at clock instants 0 and
1) return receipts that differ in `emitted_at`. -/
theorem C5_counterexample :
    exOk (parseNote pyDateNone 0 provNoDate) = true ∧
    (parseNote pyDateNone 0 provNoDate).map Canon.emitted_at = .ok (.nowAt 0) ∧
    (parseNote pyDateNone 1 provNoDate).map Canon.emitted_at = .ok (.nowAt 1) ∧
    (parseNote pyDateNone 0 provNoDate).map Canon.emitted_at ≠
      (parseNote pyDateNone 1 provNoDate).map Canon.emitted_at :=
  ⟨rfl, rfl, rfl, by decide⟩

/-! ### C8: safe and unsafe amount coercion -/

/-- A fake-shape payload whose `total` carries a comma decimal
separator. -/
def fakeBadAmount : Json :=
  .obj [("store", .obj []), ("total", .str "12,30"), ("items", .arr [])]

/-- C8, counterexample: the fake shape converts amounts with the bare
`Decimal` constructor, so the single malformed `total` field `"12,30"`
aborts the whole parse with `InvalidOperation` — while `_safe_decimal`
would have coerced the very same string to `12.30`. -/
theorem C8_counterexample :
    parseNote pyDateNone 0 fakeBadAmount = .error .invalidOperation ∧
    safeDecimal (.str "12,30") = 123 / 10 ∧
    safeDecimal (.str "abc") = 0 := by
  refine ⟨rfl, ?_, rfl⟩
  have h : safeDecimal (.str "12,30") = ((12 : Nat) : ℚ) + ((30 : Nat) : ℚ) / (10 : ℚ) ^ 2 := rfl
  rw [h]
  norm_num

/-- A provider-shape payload with a fixed skeleton and an arbitrary
value `v` in every amount field of its single product. -/
def providerAnyAmount (v : Json) : Json :=
  .obj [("retorno", .obj [("chave", .str key44),
    ("produto", .arr [.obj [("descricao", .str "ITEM"), ("quantidade", v),
      ("valor_unitario", v), ("valor_total", v), ("valor_imposto", v)]])])]

/-- C8 (amended): `_safe_decimal` itself is total — `None` and bools
coerce to 0, ints pass through, and any string coerces (defaulting to
0) — and on the provider shape, where it is used, NO amount value
whatsoever can abort the parse.  (The fake shape and the XML totals
path bypass it; see the counterexample.) -/
theorem C8_safe_decimal_total (lib : PyDateLib) (now : Nat) (v : Json) :
    exOk (parseNote lib now (providerAnyAmount v)) = true ∧
    safeDecimal .null = 0 ∧
    (∀ n : Int, safeDecimal (.int n) = (n : ℚ)) ∧
    safeDecimal (.bool true) = 0 ∧
    safeDecimal (.bool false) = 0 := by
  refine ⟨?_, rfl, fun n => rfl, rfl, rfl⟩
  rfl

/-! ### C6 and C7: product resolution -/

/-- Stand-in for `rapidfuzz.fuzz.WRatio` at the inputs evaluated here:
identical strings score 100 (a defining property of WRatio), anything
else scores 0. -/
def wratioStub : String → String → Nat := fun a b => if a = b then 100 else 0

/-- Matcher configuration with no vector DB configured. -/
def mcfgOff : MatcherCfg := ⟨"", ""⟩

/-- Vector search results when none exist. -/
def vecdbOff : String → List Nat := fun _ => []

/-- The empty catalog. -/
def emptyMState : MState := ⟨[], 0⟩

/-- Catalog state after resolving `"Arroz Tipo 1 5kg"` against the
empty catalog: one product, normalized name `"arroz"`, id 0. -/
def c6StateAfterFirst : MState :=
  (getOrCreateProductFromItem mcfgOff wratioStub vecdbOff emptyMState "Arroz Tipo 1 5kg" .null).2

/-- C6: resolving `"Arroz Tipo 1 5kg"` against an empty catalog creates
product 0 with normalized name `"arroz"`, and `"ARROZ T.1 5 KG"`
normalizes to the same `"arroz"` and fuzzy-matches it with score 100 —
but the second resolution returns the STRING `"arroz"`, not the id of
the product created first: `fuzzy_match_name` unpacks rapidfuzz's
`(choice, score, key)` mapping result as `product_id, score,
matched_name` and returns the matched normalized name in place of the
product id. -/
theorem C6_fuzzy_returns_name :
    (getOrCreateProductFromItem mcfgOff wratioStub vecdbOff emptyMState
        "Arroz Tipo 1 5kg" .null).1 = .uuid 0 ∧
    c6StateAfterFirst.catalog.map Product.normalized_name = ["arroz"] ∧
    c6StateAfterFirst.catalog.map Product.id = [0] ∧
    normalizeName "ARROZ T.1 5 KG" = "arroz" ∧
    wratioStub "arroz" "arroz" = 100 ∧
    (getOrCreateProductFromItem mcfgOff wratioStub vecdbOff c6StateAfterFirst
        "ARROZ T.1 5 KG" .null).1 = .strv "arroz" ∧
    MRet.strv "arroz" ≠ MRet.uuid 0 :=
  ⟨rfl, rfl, rfl, rfl, rfl, rfl, by decide⟩

/-- A catalog with one product, normalized name `"arroz"`, no barcode. -/
def c7State : MState := ⟨[⟨0, "arroz", .null⟩], 1⟩

/-- C7, counterexample: resolution of `"ARROZ T.1 5 KG"` with a supplied
barcode succeeds via the fuzzy strategy against a product lacking a
barcode, yet the matched product is NOT updated: the catalog state is
returned unchanged and the product's barcode stays `None`. -/
theorem C7_counterexample :
    fuzzyMatchName wratioStub c7State.catalog "ARROZ T.1 5 KG" 85 = some "arroz" ∧
    (getOrCreateProductFromItem mcfgOff wratioStub vecdbOff c7State "ARROZ T.1 5 KG"
        (.str "7891234567890")).2 = c7State ∧
    (getOrCreateProductFromItem mcfgOff wratioStub vecdbOff c7State "ARROZ T.1 5 KG"
        (.str "7891234567890")).2.catalog.map Product.barcode = [Json.null] :=
  ⟨rfl, rfl, rfl⟩

/-- C7 (amended): the matcher never backfills — when resolution
succeeds via the fuzzy strategy (2) or the embedding strategy (3), the
catalog state is returned entirely unchanged, whatever barcode the
caller supplied.  Barcode backfill exists only in
`receipt_service.get_or_create_product`: there, a product found by
exact normalized name that lacks a barcode is updated in place with the
supplied one, and a found product that already has a barcode is left
unchanged. -/
theorem C7_backfill_location (mcfg : MatcherCfg) (scorer : String → String → Nat)
    (vecdb : String → List Nat) (st : MState) (desc : String) (bc : Json) :
    (∀ s, (if pyTruthy bc then matchByBarcode st.catalog bc else none) = none →
      (if ¬desc.isEmpty then fuzzyMatchName scorer st.catalog desc 85 else none) = some s →
      getOrCreateProductFromItem mcfg scorer vecdb st desc bc = (.strv s, st)) ∧
    (∀ pid rest, (if pyTruthy bc then matchByBarcode st.catalog bc else none) = none →
      (if ¬desc.isEmpty then fuzzyMatchName scorer st.catalog desc 85 else none) = none →
      (if ¬desc.isEmpty then embedMatchName mcfg vecdb desc else []) = pid :: rest →
      getOrCreateProductFromItem mcfg scorer vecdb st desc bc = (.uuid pid, st)) ∧
    (∀ p, st.catalog.find? (fun q => q.normalized_name == rsNormalizeProductName desc) = some p →
      pyTruthy bc = true → pyTruthy p.barcode = false →
      (rsGetOrCreateProduct st desc bc).1 = { p with barcode := bc } ∧
      (rsGetOrCreateProduct st desc bc).2.catalog =
        st.catalog.map fun q => if q.id = p.id then { p with barcode := bc } else q) ∧
    (∀ p, st.catalog.find? (fun q => q.normalized_name == rsNormalizeProductName desc) = some p →
      pyTruthy p.barcode = true →
      rsGetOrCreateProduct st desc bc = (p, st)) := by
  refine ⟨?_, ?_, ?_, ?_⟩
  · intro s h1 h2
    simp only [getOrCreateProductFromItem, h1, h2]
  · intro pid rest h1 h2 h3
    simp only [getOrCreateProductFromItem, h1, h2, h3]
  · intro p hfind hbc hpb
    simp only [rsGetOrCreateProduct, hfind]
    simp [hbc, hpb]
  · intro p hfind hpb
    simp only [rsGetOrCreateProduct, hfind]
    simp [hpb]

/-- A catalog with one product that already has a barcode. -/
def c7StateWithBarcode : MState := ⟨[⟨0, "arroz", .str "111"⟩], 1⟩

/-- Witness for C7: the fuzzy path leaves the one-product catalog
unchanged; the service path backfills the barcode of the barcode-less
`"arroz"` product and leaves a product that already has one alone. -/
theorem C7_backfill_location_witness :
    getOrCreateProductFromItem mcfgOff wratioStub vecdbOff c7State "ARROZ T.1 5 KG"
      (.str "7891234567890") = (.strv "arroz", c7State) ∧
    (rsGetOrCreateProduct c7State "Arroz" (.str "789")).1 =
      ({ id := 0, normalized_name := "arroz", barcode := .str "789" } : Product) ∧
    rsGetOrCreateProduct c7StateWithBarcode "Arroz" (.str "789") =
      (⟨0, "arroz", .str "111"⟩, c7StateWithBarcode) := by
  refine ⟨?_, ?_, ?_⟩
  · exact (C7_backfill_location mcfgOff wratioStub vecdbOff c7State "ARROZ T.1 5 KG"
      (.str "7891234567890")).1 "arroz" rfl rfl
  · exact ((C7_backfill_location mcfgOff wratioStub vecdbOff c7State "Arroz"
      (.str "789")).2.2.1 ⟨0, "arroz", .null⟩ rfl rfl rfl).1
  · exact (C7_backfill_location mcfgOff wratioStub vecdbOff c7StateWithBarcode "Arroz"
      (.str "789")).2.2.2 ⟨0, "arroz", .str "111"⟩ rfl rfl

/-! ### C10: the save path resolves products by exact normalized name -/

/-- Catalog well-formedness: every id is below the fresh-id counter and
the ids are pairwise distinct (the database primary key). -/
def WFCatalog (st : MState) : Prop :=
  (∀ p ∈ st.catalog, p.id < st.nextPid) ∧ (st.catalog.map Product.id).Nodup

/-- The specification of one `receipt_service.get_or_create_product`
call: the resolved product carries exactly the service-normalized name,
lives in the resulting catalog, well-formedness is preserved, and every
(id, name) pair present before is still present after. -/
theorem rsGet_spec (st : MState) (desc : String) (bc : Json) (hwf : WFCatalog st) :
    (rsGetOrCreateProduct st desc bc).1.normalized_name = rsNormalizeProductName desc ∧
    (rsGetOrCreateProduct st desc bc).1 ∈ (rsGetOrCreateProduct st desc bc).2.catalog ∧
    WFCatalog (rsGetOrCreateProduct st desc bc).2 ∧
    (∀ i n, (∃ p ∈ st.catalog, p.id = i ∧ p.normalized_name = n) →
      ∃ p ∈ (rsGetOrCreateProduct st desc bc).2.catalog, p.id = i ∧ p.normalized_name = n) := by
  rw [rsGetOrCreateProduct]
  cases hf : st.catalog.find? (fun p => p.normalized_name == rsNormalizeProductName desc) with
  | none =>
    simp only []
    refine ⟨by simp, by simp, ⟨?_, ?_⟩, ?_⟩
    · intro p hp
      simp only [List.mem_append, List.mem_singleton] at hp
      rcases hp with hp | hp
      · exact Nat.lt_succ_of_lt (hwf.1 p hp)
      · rw [hp]; exact Nat.lt_succ_self _
    · rw [List.map_append]
      refine List.Nodup.append hwf.2 (by simp) ?_
      intro x hx hy
      simp only [List.map_singleton, List.mem_singleton] at hy
      rcases List.mem_map.mp hx with ⟨p, hp, hid⟩
      exact absurd (hid.trans hy ▸ hwf.1 p hp) (by omega)
    · intro i n ⟨p, hp, hid, hn⟩
      exact ⟨p, List.mem_append_left _ hp, hid, hn⟩
  | some p =>
    have hmem : p ∈ st.catalog := List.mem_of_find?_eq_some hf
    have hname : p.normalized_name = rsNormalizeProductName desc := by
      have := List.find?_some hf
      simpa using this
    have hinj := List.inj_on_of_nodup_map hwf.2
    simp only []
    by_cases hb : pyTruthy bc = true ∧ ¬pyTruthy p.barcode = true
    · rw [if_pos hb]
      refine ⟨hname, ?_, ⟨?_, ?_⟩, ?_⟩
      · exact List.mem_map.mpr ⟨p, hmem, by simp⟩
      · intro q hq
        rcases List.mem_map.mp hq with ⟨q0, hq0, hqe⟩
        have : q.id = q0.id := by
          rw [← hqe]; by_cases h : q0.id = p.id <;> simp [h]
        rw [this]; exact hwf.1 q0 hq0
      · have hcomp : (st.catalog.map fun q => if q.id = p.id then { p with barcode := bc } else q).map
            Product.id = st.catalog.map Product.id := by
          rw [List.map_map]
          refine List.map_congr_left ?_
          intro q _
          by_cases h : q.id = p.id <;> simp [h]
        rw [hcomp]; exact hwf.2
      · intro i n ⟨q, hq, hid, hn⟩
        by_cases h : q.id = p.id
        · have : q = p := hinj hq hmem h
          subst this
          exact ⟨{ q with barcode := bc }, List.mem_map.mpr ⟨q, hq, by simp⟩, hid, hn⟩
        · exact ⟨q, List.mem_map.mpr ⟨q, hq, by simp [h]⟩, hid, hn⟩
    · rw [if_neg hb]
      exact ⟨hname, hmem, hwf, fun i n h => h⟩

/-- The `save_receipt` item loop preserves catalog well-formedness and
resolves every processed item to a product of the final catalog whose
name is exactly the service-normalized description. -/
theorem saveItemsGo_spec (items : List CanonItem) :
    ∀ (st : MState) (acc : List (String × Nat)), WFCatalog st →
    (∀ e ∈ acc, ∃ p ∈ st.catalog, p.id = e.2 ∧ p.normalized_name = rsNormalizeProductName e.1) →
    WFCatalog (saveItemsGo items st acc).2 ∧
    (∀ e ∈ (saveItemsGo items st acc).1, ∃ p ∈ (saveItemsGo items st acc).2.catalog,
      p.id = e.2 ∧ p.normalized_name = rsNormalizeProductName e.1) := by
  induction items with
  | nil =>
    intro st acc hwf hacc
    exact ⟨hwf, hacc⟩
  | cons it rest ih =>
    intro st acc hwf hacc
    obtain ⟨hname, hmem, hwf2, hpres⟩ := rsGet_spec st it.description it.barcode hwf
    rw [saveItemsGo]
    refine ih (rsGetOrCreateProduct st it.description it.barcode).2
      (acc ++ [(it.description, (rsGetOrCreateProduct st it.description it.barcode).1.id)])
      hwf2 ?_
    intro e he
    rcases List.mem_append.mp he with he | he
    · exact hpres e.2 (rsNormalizeProductName e.1) (hacc e he)
    · rcases List.mem_singleton.mp he with rfl
      exact ⟨(rsGetOrCreateProduct st it.description it.barcode).1, hmem, rfl, hname⟩

/-- C10: during `save_receipt`, every item is resolved solely by exact
equality on `receipt_service._normalize_product_name` — each item row
points at a product of the final catalog whose `normalized_name` equals
the normalizer output for the item description (created on a miss) —
and two items whose normalized names differ always receive distinct
product ids.  The matcher's barcode/fuzzy/embedding strategies are
nowhere on this path (`saveItemsGo` invokes only
`rsGetOrCreateProduct`). -/
theorem C10_exact_name_resolution (st : SysState) (uid : String) (pd : Canon)
    (hwf : WFCatalog ⟨st.catalog, st.nextPid⟩) :
    (∀ e ∈ (saveReceipt st uid pd).2.1,
      ∃ p ∈ (saveReceipt st uid pd).2.2.catalog,
        p.id = e.2 ∧ p.normalized_name = rsNormalizeProductName e.1) ∧
    (∀ e1 ∈ (saveReceipt st uid pd).2.1, ∀ e2 ∈ (saveReceipt st uid pd).2.1,
      rsNormalizeProductName e1.1 ≠ rsNormalizeProductName e2.1 → e1.2 ≠ e2.2) := by
  obtain ⟨hwf2, hmem⟩ := saveItemsGo_spec pd.items ⟨st.catalog, st.nextPid⟩ [] hwf (by simp)
  have hcat : (saveReceipt st uid pd).2.2.catalog =
      (saveItemsGo pd.items ⟨st.catalog, st.nextPid⟩ []).2.catalog := by
    rw [saveReceipt]
  have hitems : (saveReceipt st uid pd).2.1 =
      (saveItemsGo pd.items ⟨st.catalog, st.nextPid⟩ []).1 := by
    rw [saveReceipt]
  constructor
  · intro e he
    rw [hitems] at he
    rw [hcat]
    exact hmem e he
  · intro e1 h1 e2 h2 hneq heq
    rw [hitems] at h1 h2
    obtain ⟨p1, hp1, hid1, hn1⟩ := hmem e1 h1
    obtain ⟨p2, hp2, hid2, hn2⟩ := hmem e2 h2
    have hpid : p1.id = p2.id := by rw [hid1, hid2, heq]
    have : p1 = p2 := List.inj_on_of_nodup_map hwf2.2 hp1 hp2 hpid
    exact hneq (by rw [← hn1, ← hn2, this])

/-- An empty database state. -/
def emptySysState : SysState := ⟨[], 0, [], 0⟩

/-- A canonical receipt with two items whose descriptions normalize
differently. -/
def pdTwoItems : Canon :=
  { access_key := key44, emitted_at := .nowAt 0, store_name := .str "L", store_cnpj := .null
    subtotal := 0, total_value := 0, total_tax := 0
    items := [⟨"Arroz Tipo 1 5kg", 1, 1, 1, 0, .null⟩, ⟨"Feijao Preto 1kg", 1, 1, 1, 0, .null⟩] }

/-- Witness for C10: saving a two-item receipt into an empty catalog
assigns the two differently-normalized items the distinct product ids 0
and 1. -/
theorem C10_exact_name_resolution_witness :
    (("Arroz Tipo 1 5kg", 0) : String × Nat).2 ≠ (("Feijao Preto 1kg", 1) : String × Nat).2 :=
  (C10_exact_name_resolution emptySysState "u" pdTwoItems
      ⟨by simp [emptySysState], by simp [emptySysState]⟩).2
    ("Arroz Tipo 1 5kg", 0) (by decide) ("Feijao Preto 1kg", 1) (by decide) (by decide)

/-! ### C1 and C9: orchestrator idempotency and deferral -/

/-- Extract the receipt of a successful parse (fallback for the
impossible error case of concrete evaluations). -/
def forceOk (e : Except ParseErr Canon) (d : Canon) : Canon :=
  match e with
  | .ok c => c
  | .error _ => d

/-- A trivial canonical receipt, used only as the `forceOk` fallback. -/
def canonDefault : Canon := ⟨"", .nowAt 0, .null, .null, 0, 0, 0, []⟩

/-- A provider that always fails (the URL path is unused in these
scenarios). -/
def fetchNone : String → Except PErr Json := fun _ => .error (.providerError "offline")

/-- A provider that always returns the given payload. -/
def fetchConst (j : Json) : String → Except PErr Json := fun _ => .ok j

/-- A database state already holding a receipt for `("u", key44)`. -/
def c1State : SysState := ⟨[⟨0, "u", key44⟩], 1, [], 0⟩

/-- C1, counterexample: the deferred-processing task performs NO
idempotency check — re-running it for an owner and access key that
already have a persisted receipt appends a second receipt for the same
pair, so the at-most-one invariant does not hold. -/
theorem C1_counterexample :
    (c1State.receipts.filter (fun r => r.userId == "u" && r.accessKey == key44)).length = 1 ∧
    ((processReceiptTask pyDateNone 0 "u" provNoDate key44 c1State).2.receipts.filter
      (fun r => r.userId == "u" && r.accessKey == key44)).length = 2 :=
  ⟨rfl, rfl⟩

/-- C1 (amended): the synchronous endpoint does reach a terminal
`Conflict` without persisting a second receipt when a receipt already
exists for `(owner, access_key)` — but only AFTER issuing the provider
fetch and parsing (the idempotency check runs post-parse, so the fetch
IS issued); and the deferred task `process_receipt_task` performs no
idempotency check at all: whatever receipts exist, it appends a new
receipt row for the parsed (or handed-over) access key, so redelivery
with the same owner and access key double-creates. -/
theorem C1_idempotency (lib : PyDateLib) (now : Nat)
    (fetchUrl fetchKey : String → Except PErr Json) (k : String) (raw : Json) (pd : Canon)
    (r : Rcpt) (uid : String) (st : SysState) :
    (fetchKey k = .ok raw →
      parseNote lib now raw = .ok pd →
      (finalAccessKey pd k).isEmpty = false →
      checkReceiptExists st.receipts uid (finalAccessKey pd k) = some r →
      scanReceipt lib now fetchUrl fetchKey (.ok (none, some k)) uid st =
        (.conflict r.id, ⟨true, true⟩, st)) ∧
    (∀ ak, parseNote lib now raw = .ok pd →
      (processReceiptTask lib now uid raw ak st).2.receipts =
        st.receipts ++ [⟨st.nextRid, uid,
          if pd.access_key.isEmpty ∧ ¬ak.isEmpty then ak else pd.access_key⟩]) := by
  constructor
  · intro hfetch hparse hfk hex
    rw [scanReceipt]
    simp only [Option.getD]
    rw [hfetch]
    simp only []
    rw [hparse]
    simp only []
    rw [if_neg (by simp [hfk]), hex]
  · intro ak hparse
    rw [processReceiptTask, hparse]
    simp only []
    by_cases hc : pd.access_key.isEmpty = true ∧ ¬ak.isEmpty = true
    · rw [if_pos hc, if_pos hc, saveReceipt]
    · rw [if_neg hc, if_neg hc, saveReceipt]

/-- The receipt parsed from `provNoDate` at instant 0. -/
def pdProv : Canon := forceOk (parseNote pyDateNone 0 provNoDate) canonDefault

/-- Witness for C1: with a receipt for `("u", key44)` already stored,
the synchronous scan of a payload carrying that key returns `Conflict`
with the receipts untouched but the fetch issued, and the deferred task
appends a second row for the very same pair. -/
theorem C1_idempotency_witness :
    scanReceipt pyDateNone 0 fetchNone (fetchConst provNoDate) (.ok (none, some key44)) "u"
      c1State = (.conflict 0, ⟨true, true⟩, c1State) ∧
    (processReceiptTask pyDateNone 0 "u" provNoDate key44 c1State).2.receipts =
      c1State.receipts ++ [⟨1, "u", key44⟩] := by
  constructor
  · exact (C1_idempotency pyDateNone 0 fetchNone (fetchConst provNoDate) key44 provNoDate
      pdProv ⟨0, "u", key44⟩ "u" c1State).1 rfl rfl rfl rfl
  · exact (C1_idempotency pyDateNone 0 fetchNone (fetchConst provNoDate) key44 provNoDate
      pdProv ⟨0, "u", key44⟩ "u" c1State).2 key44 rfl

/-- A fake-shape payload with 51 items (over the 50-item deferral
threshold) that still parses successfully. -/
def payload51 : Json :=
  .obj [("store", .obj []), ("total", .int 1), ("items", .arr (List.replicate 51 (.obj [])))]

/-- C9, counterexample: a payload routed to the deferred path (51 items)
is nevertheless parsed inline — the trace records `parse_note` invoked
before the deferral decision, contradicting "without parsing inline"
(the rest of the deferred behavior — accepted outcome, no persistence,
catalog untouched — does hold). -/
theorem C9_counterexample :
    shouldProcessInBackground payload51 = true ∧
    scanReceipt pyDateNone 0 fetchNone (fetchConst payload51) (.ok (none, some key44)) "u"
      emptySysState = (.accepted, ⟨true, true⟩, emptySysState) ∧
    (scanReceipt pyDateNone 0 fetchNone (fetchConst payload51) (.ok (none, some key44)) "u"
      emptySysState).2.1.parsed = true :=
  ⟨rfl, rfl, rfl⟩

/-- C9 (amended): after the inline fetch, parse and idempotency check,
a payload whose deferral predicate holds is handed off and the call
returns the accepted outcome with the database state — receipts AND
product catalog — completely untouched; otherwise the pipeline
completes synchronously, returning the identity of the freshly saved
receipt.  The deferral predicate is true whenever the serialized
payload exceeds 50000 bytes or the payload's item list has more than 50
entries. -/
theorem C9_deferral (lib : PyDateLib) (now : Nat)
    (fetchUrl fetchKey : String → Except PErr Json) (k : String) (raw : Json) (pd : Canon)
    (uid : String) (st : SysState) :
    (fetchKey k = .ok raw →
      parseNote lib now raw = .ok pd →
      (finalAccessKey pd k).isEmpty = false →
      checkReceiptExists st.receipts uid (finalAccessKey pd k) = none →
      (shouldProcessInBackground raw = true →
        scanReceipt lib now fetchUrl fetchKey (.ok (none, some k)) uid st =
          (.accepted, ⟨true, true⟩, st)) ∧
      (shouldProcessInBackground raw = false →
        scanReceipt lib now fetchUrl fetchKey (.ok (none, some k)) uid st =
          (.saved st.nextRid, ⟨true, true⟩,
            (saveReceipt st uid { pd with access_key := finalAccessKey pd k }).2.2))) ∧
    ((jsonDumps raw).utf8ByteSize > 50000 → shouldProcessInBackground raw = true) ∧
    (∀ xs, raw.lookup "items" = some (.arr xs) → xs.length > 50 →
      shouldProcessInBackground raw = true) := by
  refine ⟨?_, ?_, ?_⟩
  · intro hfetch hparse hfk hex
    constructor
    · intro hbg
      rw [scanReceipt]
      simp only [Option.getD]
      rw [hfetch]
      simp only []
      rw [hparse]
      simp only []
      rw [if_neg (by simp [hfk]), hex]
      simp only []
      rw [if_pos hbg]
    · intro hbg
      rw [scanReceipt]
      simp only [Option.getD]
      rw [hfetch]
      simp only []
      rw [hparse]
      simp only []
      rw [if_neg (by simp [hfk]), hex]
      simp only []
      rw [if_neg (by simp [hbg]), saveReceipt]
  · intro hsize
    cases raw <;> simp [shouldProcessInBackground, hsize]
  · intro xs hitems hlen
    have hobj : ∃ kvs, raw = .obj kvs := by
      cases raw <;> simp [Json.lookup] at hitems ⊢
    obtain ⟨kvs, rfl⟩ := hobj
    rw [shouldProcessInBackground]
    by_cases hsize : (jsonDumps (.obj kvs)).utf8ByteSize > 50000
    · rw [if_pos hsize]
    · rw [if_neg hsize]
      have hk : (Json.obj kvs).hasKey "items" = true := by
        simp [Json.hasKey, hitems]
      rw [if_pos hk]
      have hg : (Json.obj kvs).getN "items" = .arr xs := by
        simp [Json.getN, Json.getD, hitems]
      rw [hg]
      simp only [pyLen]
      simpa using hlen

/-- The receipt parsed from `payload51` at instant 0. -/
def pd51 : Canon := forceOk (parseNote pyDateNone 0 payload51) canonDefault

/-- A one-item fake-shape payload under both deferral thresholds. -/
def payloadSmall : Json :=
  .obj [("store", .obj []), ("total", .int 1),
    ("items", .arr [.obj [("description", .str "Arroz Tipo 1 5kg")]])]

/-- The receipt parsed from `payloadSmall` at instant 0. -/
def pdSmall : Canon := forceOk (parseNote pyDateNone 0 payloadSmall) canonDefault

/-- Witness for C9: the 51-item payload is deferred with the state
untouched, the one-item payload is saved synchronously as receipt 0,
and both deferral-trigger implications fire on `payload51`. -/
theorem C9_deferral_witness :
    scanReceipt pyDateNone 0 fetchNone (fetchConst payload51) (.ok (none, some key44)) "u"
      emptySysState = (.accepted, ⟨true, true⟩, emptySysState) ∧
    scanReceipt pyDateNone 0 fetchNone (fetchConst payloadSmall) (.ok (none, some key44)) "u"
      emptySysState = (.saved 0, ⟨true, true⟩,
        (saveReceipt emptySysState "u"
          { pdSmall with access_key := finalAccessKey pdSmall key44 }).2.2) ∧
    shouldProcessInBackground payload51 = true := by
  refine ⟨?_, ?_, ?_⟩
  · exact ((C9_deferral pyDateNone 0 fetchNone (fetchConst payload51) key44 payload51 pd51 "u"
      emptySysState).1 rfl rfl rfl rfl).1 rfl
  · exact ((C9_deferral pyDateNone 0 fetchNone (fetchConst payloadSmall) key44 payloadSmall
      pdSmall "u" emptySysState).1 rfl rfl rfl rfl).2 rfl
  · exact (C9_deferral pyDateNone 0 fetchNone (fetchConst payload51) key44 payload51 pd51 "u"
      emptySysState).2.2 (List.replicate 51 (.obj [])) rfl (by simp)

end Economiza
